import Mathlib

/-!
# Verification of the goastro/indiclient connection engine

Shallow embedding of the INDI client's device registry, message dispatcher,
BLOB sink and client facade, translated from `indiclient.go`, `device.go`
and `xmlmodels.go`.  Go maps (`map[string]T`, `sync.Map`) are modelled as
string-keyed association lists with insert-or-replace semantics; the
filesystem is a map from file name to byte list; wall-clock time and INDI
timestamp parsing are explicit parameters.
-/

namespace IndiClient

/-! ## Association lists modelling Go maps -/

/-- Lookup in a string-keyed association list (Go map indexing `m[k]`). -/
def alFind (k : String) : List (String × α) → Option α
  | [] => none
  | p :: r => if p.1 = k then some p.2 else alFind k r

/-- Remove every binding of key `k` (Go `delete(m, k)`). -/
def alErase (k : String) : List (String × α) → List (String × α)
  | [] => []
  | p :: r => if p.1 = k then alErase k r else p :: alErase k r

/-- Insert-or-replace a binding (Go map assignment `m[k] = v`). -/
def alInsert (k : String) (v : α) (m : List (String × α)) : List (String × α) :=
  alErase k m ++ [(k, v)]

/-- Number of bindings carrying key `k`. -/
def alCount (k : String) : List (String × α) → Nat
  | [] => 0
  | p :: r => (if p.1 = k then 1 else 0) + alCount k r

/-! ## Base64 decoding (Go `encoding/base64`, standard alphabet)

`base64.NewDecoder(base64.StdEncoding, r)` decodes 4-character quanta over
the standard alphabet, tolerates embedded `\r`/`\n`, and accepts `=`
padding only at the end of the stream.  The result pairs the decoded bytes
(those produced before any error) with a success flag. -/

/-- Value of one standard-alphabet base64 character. -/
def b64Index (c : Char) : Option Nat :=
  if 'A' ≤ c ∧ c ≤ 'Z' then some (c.toNat - 65)
  else if 'a' ≤ c ∧ c ≤ 'z' then some (c.toNat - 71)
  else if '0' ≤ c ∧ c ≤ '9' then some (c.toNat + 4)
  else if c = '+' then some 62
  else if c = '/' then some 63
  else none

/-- Decode a stream of base64 characters quantum by quantum. -/
def b64DecodeList : List Char → List Nat × Bool
  | c1 :: c2 :: c3 :: c4 :: rest =>
    match b64Index c1, b64Index c2 with
    | some i1, some i2 =>
      let b1 := i1 * 4 + i2 / 16
      if c3 = '=' then
        if c4 = '=' ∧ rest = [] then ([b1], true) else ([], false)
      else
        match b64Index c3 with
        | some i3 =>
          let b2 := (i2 % 16) * 16 + i3 / 4
          if c4 = '=' then
            if rest = [] then ([b1, b2], true) else ([], false)
          else
            match b64Index c4 with
            | some i4 =>
              let b3 := (i3 % 4) * 64 + i4
              let r := b64DecodeList rest
              (b1 :: b2 :: b3 :: r.1, r.2)
            | none => ([], false)
        | none => ([], false)
    | _, _ => ([], false)
  | [] => ([], true)
  | _ => ([], false)

/-- Decode a base64 string the way Go's streaming decoder does: carriage
returns and newlines are ignored, everything else must be standard-alphabet
data with trailing `=` padding. -/
def b64Decode (s : String) : List Nat × Bool :=
  b64DecodeList (s.data.filter (fun c => ¬ (c = '\r' ∨ c = '\n')))

/-- Go's `strings.TrimSpace`: drop leading and trailing whitespace.
Implemented over the character list so that it evaluates by kernel
reduction. -/
def trimSpace (s : String) : String :=
  ⟨((s.data.dropWhile Char.isWhitespace).reverse.dropWhile Char.isWhitespace).reverse⟩

/-! ## Enumerations (string-typed in Go) -/

/-- Wall-clock instants (`time.Time`), abstracted to a counter. -/
abbrev Time := Nat

abbrev PropertyState := String

def PropertyStateIdle : PropertyState := "Idle"

def PropertyStateOk : PropertyState := "Ok"

def PropertyStateBusy : PropertyState := "Busy"

def PropertyStateAlert : PropertyState := "Alert"

abbrev SwitchState := String

def SwitchStateOff : SwitchState := "Off"

def SwitchStateOn : SwitchState := "On"

abbrev SwitchRule := String

abbrev PropertyPermission := String

def PropertyPermissionReadOnly : PropertyPermission := "ro"

def PropertyPermissionWriteOnly : PropertyPermission := "wo"

def PropertyPermissionReadWrite : PropertyPermission := "rw"

abbrev BlobEnable := String

def BlobEnableNever : BlobEnable := "Never"

def BlobEnableAlso : BlobEnable := "Also"

def BlobEnableOnly : BlobEnable := "Only"

/-! ## Device model (`device.go`) -/

/-- A message received from indiserver. -/
structure Message where
  Timestamp : Time
  Message : String
  deriving DecidableEq

/-- A text value on a `TextProperty`. -/
structure TextValue where
  Name : String
  Label : String
  Value : String
  deriving DecidableEq

/-- A text property on a device. -/
structure TextProperty where
  Name : String
  Label : String
  Group : String
  State : PropertyState
  Timeout : Int
  LastUpdated : Time
  Messages : List Message
  Permissions : PropertyPermission
  Values : List (String × TextValue)
  deriving DecidableEq

/-- A switch value on a `SwitchProperty`. -/
structure SwitchValue where
  Name : String
  Label : String
  Value : SwitchState
  deriving DecidableEq

/-- A switch property on a device. -/
structure SwitchProperty where
  Name : String
  Label : String
  Group : String
  State : PropertyState
  Timeout : Int
  LastUpdated : Time
  Messages : List Message
  Rule : SwitchRule
  Permissions : PropertyPermission
  Values : List (String × SwitchValue)
  deriving DecidableEq

/-- A number value on a `NumberProperty`. -/
structure NumberValue where
  Name : String
  Label : String
  Value : String
  Format : String
  Min : String
  Max : String
  Step : String
  deriving DecidableEq

/-- A number property on a device. -/
structure NumberProperty where
  Name : String
  Label : String
  Group : String
  State : PropertyState
  Timeout : Int
  LastUpdated : Time
  Messages : List Message
  Permissions : PropertyPermission
  Values : List (String × NumberValue)
  deriving DecidableEq

/-- A light value on a `LightProperty`. -/
structure LightValue where
  Name : String
  Label : String
  Value : PropertyState
  deriving DecidableEq

/-- A light property on a device (read-only; no timeout or permissions). -/
structure LightProperty where
  Name : String
  Label : String
  Group : String
  State : PropertyState
  LastUpdated : Time
  Messages : List Message
  Values : List (String × LightValue)
  deriving DecidableEq

/-- A blob value on a `BlobProperty`. -/
structure BlobValue where
  Name : String
  Label : String
  Value : String
  Size : Int
  deriving DecidableEq

/-- A blob property on a device. -/
structure BlobProperty where
  Name : String
  Label : String
  Group : String
  State : PropertyState
  LastUpdated : Time
  Messages : List Message
  Permissions : PropertyPermission
  Timeout : Int
  Values : List (String × BlobValue)
  deriving DecidableEq

/-- An INDI device. -/
structure Device where
  Name : String
  TextProperties : List (String × TextProperty)
  SwitchProperties : List (String × SwitchProperty)
  NumberProperties : List (String × NumberProperty)
  BlobProperties : List (String × BlobProperty)
  LightProperties : List (String × LightProperty)
  Messages : List Message
  deriving DecidableEq

/-- `Device.Groups` collects the `Group` label of every property of every
kind into a set and returns the sorted result (`device.go`). -/
def Device.Groups (d : Device) : List String :=
  let temp :=
    (d.LightProperties.map (fun v => v.2.Group)) ++
    (d.TextProperties.map (fun v => v.2.Group)) ++
    (d.SwitchProperties.map (fun v => v.2.Group)) ++
    (d.BlobProperties.map (fun v => v.2.Group)) ++
    (d.NumberProperties.map (fun v => v.2.Group))
  (temp.dedup).insertionSort (· ≤ ·)

/-! ## Wire model (`xmlmodels.go`), inbound and outbound elements -/

structure getProperties where
  Version : String
  Device : String
  Name : String
  deriving DecidableEq

structure enableBlob where
  Device : String
  Name : String
  Value : BlobEnable
  deriving DecidableEq

structure defText where
  Name : String
  Label : String
  Value : String
  deriving DecidableEq

structure defTextVector where
  Device : String
  Name : String
  Label : String
  Group : String
  State : PropertyState
  Perm : PropertyPermission
  Timeout : Int
  Timestamp : String
  Message : String
  Texts : List defText
  deriving DecidableEq

structure defNumber where
  Name : String
  Label : String
  Format : String
  Min : String
  Max : String
  Step : String
  Value : String
  deriving DecidableEq

structure defNumberVector where
  Device : String
  Name : String
  Label : String
  Group : String
  State : PropertyState
  Perm : PropertyPermission
  Timeout : Int
  Timestamp : String
  Message : String
  Numbers : List defNumber
  deriving DecidableEq

structure defSwitch where
  Name : String
  Label : String
  Value : SwitchState
  deriving DecidableEq

structure defSwitchVector where
  Device : String
  Name : String
  Label : String
  Group : String
  State : PropertyState
  Perm : PropertyPermission
  Rule : SwitchRule
  Timeout : Int
  Timestamp : String
  Message : String
  Switches : List defSwitch
  deriving DecidableEq

structure defLight where
  Name : String
  Label : String
  Value : PropertyState
  deriving DecidableEq

structure defLightVector where
  Device : String
  Name : String
  Label : String
  Group : String
  State : PropertyState
  Timestamp : String
  Message : String
  Lights : List defLight
  deriving DecidableEq

structure defBlob where
  Name : String
  Label : String
  deriving DecidableEq

structure defBlobVector where
  Device : String
  Name : String
  Label : String
  Group : String
  State : PropertyState
  Perm : PropertyPermission
  Timeout : Int
  Timestamp : String
  Message : String
  Blobs : List defBlob
  deriving DecidableEq

structure oneText where
  Name : String
  Value : String
  deriving DecidableEq

structure oneNumber where
  Name : String
  Value : String
  deriving DecidableEq

structure oneSwitch where
  Name : String
  Value : SwitchState
  deriving DecidableEq

structure oneBlob where
  Name : String
  Size : Int
  Format : String
  Value : String
  deriving DecidableEq

structure oneLight where
  Name : String
  Value : PropertyState
  deriving DecidableEq

structure newTextVector where
  Device : String
  Name : String
  Timestamp : String
  Texts : List oneText
  deriving DecidableEq

structure newNumberVector where
  Device : String
  Name : String
  Timestamp : String
  Numbers : List oneNumber
  deriving DecidableEq

structure newSwitchVector where
  Device : String
  Name : String
  Timestamp : String
  Switches : List oneSwitch
  deriving DecidableEq

structure newBlobVector where
  Device : String
  Name : String
  Timestamp : String
  Blobs : List oneBlob
  deriving DecidableEq

structure setTextVector where
  Device : String
  Name : String
  State : PropertyState
  Timeout : Int
  Timestamp : String
  Message : String
  Texts : List oneText
  deriving DecidableEq

structure setNumberVector where
  Device : String
  Name : String
  State : PropertyState
  Timeout : Int
  Timestamp : String
  Message : String
  Numbers : List oneNumber
  deriving DecidableEq

structure setSwitchVector where
  Device : String
  Name : String
  State : PropertyState
  Timeout : Int
  Timestamp : String
  Message : String
  Switches : List oneSwitch
  deriving DecidableEq

structure setLightVector where
  Device : String
  Name : String
  State : PropertyState
  Timestamp : String
  Message : String
  Lights : List oneLight
  deriving DecidableEq

structure setBlobVector where
  Device : String
  Name : String
  State : PropertyState
  Timeout : Int
  Timestamp : String
  Message : String
  Blobs : List oneBlob
  deriving DecidableEq

structure delProperty where
  Device : String
  Name : String
  Timestamp : String
  Message : String
  deriving DecidableEq

/-! ## Errors and outbound command queue -/

/-- The error taxonomy of the facade (`Err*` variables in `indiclient.go`). -/
inductive Err where
  | DeviceNotFound
  | PropertyNotFound
  | PropertyValueNotFound
  | PropertyReadOnly
  | PropertyWithoutDevice
  | InvalidBlobEnable
  deriving DecidableEq

/-- An outbound command placed on the client's write channel. -/
inductive Command where
  | getProperties (cmd : getProperties)
  | enableBlob (cmd : enableBlob)
  | newTextVector (cmd : newTextVector)
  | newNumberVector (cmd : newNumberVector)
  | newSwitchVector (cmd : newSwitchVector)
  | newBlobVector (cmd : newBlobVector)
  deriving DecidableEq

/-! ## The client (`INDIClient`)

The mutable state of the Go struct: the device registry (`sync.Map`), the
injected filesystem (file name to byte content), and the outbound command
channel modelled as the queue of enqueued commands. -/

structure INDIClient where
  devices : List (String × Device)
  fs : List (String × List Nat)
  write : List Command
  deriving DecidableEq

/-- `findDevice` returns the device, or `none` for `ErrDeviceNotFound`. -/
def INDIClient.findDevice (c : INDIClient) (name : String) : Option Device :=
  alFind name c.devices

/-- `findOrCreateDevice` falls back to a fresh empty device record. -/
def INDIClient.findOrCreateDevice (c : INDIClient) (name : String) : Device :=
  match c.findDevice name with
  | some d => d
  | none =>
      { Name := name
        TextProperties := []
        SwitchProperties := []
        NumberProperties := []
        LightProperties := []
        BlobProperties := []
        Messages := [] }

/-- `set*Vector` timestamp handling: an empty timestamp, or one that fails
to parse, falls back to the current wall-clock. -/
def resolveTime (now : Time) (parse : String → Option Time) (ts : String) : Time :=
  if ts.length = 0 then now
  else
    match parse ts with
    | some t => t
    | none => now

/-! ## Client facade (public API) -/

/-- `GetProperties` rejects a property scoped to no device, otherwise
enqueues a `getProperties version="1.7"` command. -/
def INDIClient.GetProperties (c : INDIClient) (deviceName propName : String) :
    INDIClient × Option Err :=
  if propName.length > 0 ∧ deviceName.length = 0 then
    (c, some Err.PropertyWithoutDevice)
  else
    ({ c with write := c.write ++
        [Command.getProperties { Version := "1.7", Device := deviceName, Name := propName }] },
      none)

/-- `EnableBlob` validates the mode, then the device, then enqueues an
`enableBLOB` command. -/
def INDIClient.EnableBlob (c : INDIClient) (deviceName propName : String)
    (val : BlobEnable) : INDIClient × Option Err :=
  if val ≠ BlobEnableAlso ∧ val ≠ BlobEnableNever ∧ val ≠ BlobEnableOnly then
    (c, some Err.InvalidBlobEnable)
  else
    match c.findDevice deviceName with
    | none => (c, some Err.DeviceNotFound)
    | some _ =>
        ({ c with write := c.write ++
            [Command.enableBlob { Device := deviceName, Name := propName, Value := val }] },
          none)

/-- `SetTextValue`: validate device, property, permission, value; mark the
property Busy; enqueue a `newTextVector` with the single changed value. -/
def INDIClient.SetTextValue (c : INDIClient)
    (deviceName propName textName textValue : String) : INDIClient × Option Err :=
  match c.findDevice deviceName with
  | none => (c, some Err.DeviceNotFound)
  | some device =>
    match alFind propName device.TextProperties with
    | none => (c, some Err.PropertyNotFound)
    | some prop =>
      if prop.Permissions = PropertyPermissionReadOnly then
        (c, some Err.PropertyReadOnly)
      else
        match alFind textName prop.Values with
        | none => (c, some Err.PropertyValueNotFound)
        | some _ =>
          let prop := { prop with State := PropertyStateBusy }
          let device := { device with
            TextProperties := alInsert propName prop device.TextProperties }
          let cmd : newTextVector :=
            { Device := deviceName
              Name := propName
              Timestamp := ""
              Texts := [{ Name := textName, Value := textValue }] }
          ({ c with
              devices := alInsert deviceName device c.devices
              write := c.write ++ [Command.newTextVector cmd] },
            none)

/-- `SetNumberValue`, same validation ladder as `SetTextValue`. -/
def INDIClient.SetNumberValue (c : INDIClient)
    (deviceName propName numberName numberValue : String) : INDIClient × Option Err :=
  match c.findDevice deviceName with
  | none => (c, some Err.DeviceNotFound)
  | some device =>
    match alFind propName device.NumberProperties with
    | none => (c, some Err.PropertyNotFound)
    | some prop =>
      if prop.Permissions = PropertyPermissionReadOnly then
        (c, some Err.PropertyReadOnly)
      else
        match alFind numberName prop.Values with
        | none => (c, some Err.PropertyValueNotFound)
        | some _ =>
          let prop := { prop with State := PropertyStateBusy }
          let device := { device with
            NumberProperties := alInsert propName prop device.NumberProperties }
          let cmd : newNumberVector :=
            { Device := deviceName
              Name := propName
              Timestamp := ""
              Numbers := [{ Name := numberName, Value := numberValue }] }
          ({ c with
              devices := alInsert deviceName device c.devices
              write := c.write ++ [Command.newNumberVector cmd] },
            none)

/-- `SetSwitchValue`, same validation ladder as `SetTextValue`. -/
def INDIClient.SetSwitchValue (c : INDIClient)
    (deviceName propName switchName : String) (switchValue : SwitchState) :
    INDIClient × Option Err :=
  match c.findDevice deviceName with
  | none => (c, some Err.DeviceNotFound)
  | some device =>
    match alFind propName device.SwitchProperties with
    | none => (c, some Err.PropertyNotFound)
    | some prop =>
      if prop.Permissions = PropertyPermissionReadOnly then
        (c, some Err.PropertyReadOnly)
      else
        match alFind switchName prop.Values with
        | none => (c, some Err.PropertyValueNotFound)
        | some _ =>
          let prop := { prop with State := PropertyStateBusy }
          let device := { device with
            SwitchProperties := alInsert propName prop device.SwitchProperties }
          let cmd : newSwitchVector :=
            { Device := deviceName
              Name := propName
              Timestamp := ""
              Switches := [{ Name := switchName, Value := switchValue }] }
          ({ c with
              devices := alInsert deviceName device c.devices
              write := c.write ++ [Command.newSwitchVector cmd] },
            none)

/-- `SetBlobValue`, same validation ladder as `SetTextValue`. -/
def INDIClient.SetBlobValue (c : INDIClient)
    (deviceName propName blobName blobValue blobFormat : String) (blobSize : Int) :
    INDIClient × Option Err :=
  match c.findDevice deviceName with
  | none => (c, some Err.DeviceNotFound)
  | some device =>
    match alFind propName device.BlobProperties with
    | none => (c, some Err.PropertyNotFound)
    | some prop =>
      if prop.Permissions = PropertyPermissionReadOnly then
        (c, some Err.PropertyReadOnly)
      else
        match alFind blobName prop.Values with
        | none => (c, some Err.PropertyValueNotFound)
        | some _ =>
          let prop := { prop with State := PropertyStateBusy }
          let device := { device with
            BlobProperties := alInsert propName prop device.BlobProperties }
          let cmd : newBlobVector :=
            { Device := deviceName
              Name := propName
              Timestamp := ""
              Blobs := [{ Name := blobName, Size := blobSize,
                          Format := blobFormat, Value := blobValue }] }
          ({ c with
              devices := alInsert deviceName device c.devices
              write := c.write ++ [Command.newBlobVector cmd] },
            none)

/-- The `def*Vector` inner-value loop: (re)initialize the value map from
the declared values (later duplicates overwrite earlier ones). -/
def defValues (key : β → String) (mk : β → α) (items : List β) : List (String × α) :=
  items.foldl (fun vs it => alInsert (key it) (mk it) vs) []

/-! ## Message dispatcher: definition elements -/

/-- Dispatch an inbound `defTextVector`: build the property afresh from the
element (note: the `timeout` attribute is not copied; the Go struct literal
leaves `Timeout` at its zero value) and upsert it. -/
def INDIClient.defTextVector (now : Time) (c : INDIClient) (item : defTextVector) :
    INDIClient :=
  let device := c.findOrCreateDevice item.Device
  let values := defValues defText.Name
    (fun val => { Label := val.Label, Name := val.Name, Value := trimSpace val.Value }) item.Texts
  let prop : TextProperty :=
    { Name := item.Name
      Label := item.Label
      Group := item.Group
      Permissions := item.Perm
      State := item.State
      Timeout := 0
      Values := values
      LastUpdated := now
      Messages := if item.Message.length > 0 then
          [{ Message := item.Message, Timestamp := now }] else [] }
  let device := { device with TextProperties := alInsert item.Name prop device.TextProperties }
  { c with devices := alInsert item.Device device c.devices }

/-- Dispatch an inbound `defSwitchVector` (the `timeout` attribute is not
copied into the property). -/
def INDIClient.defSwitchVector (now : Time) (c : INDIClient) (item : defSwitchVector) :
    INDIClient :=
  let device := c.findOrCreateDevice item.Device
  let values := defValues defSwitch.Name
    (fun val => { Label := val.Label, Name := val.Name, Value := trimSpace val.Value }) item.Switches
  let prop : SwitchProperty :=
    { Name := item.Name
      Label := item.Label
      Group := item.Group
      Permissions := item.Perm
      Rule := item.Rule
      State := item.State
      Timeout := 0
      Values := values
      LastUpdated := now
      Messages := if item.Message.length > 0 then
          [{ Message := item.Message, Timestamp := now }] else [] }
  let device := { device with SwitchProperties := alInsert item.Name prop device.SwitchProperties }
  { c with devices := alInsert item.Device device c.devices }

/-- Dispatch an inbound `defNumberVector` (the `timeout` attribute is not
copied into the property). -/
def INDIClient.defNumberVector (now : Time) (c : INDIClient) (item : defNumberVector) :
    INDIClient :=
  let device := c.findOrCreateDevice item.Device
  let values := defValues defNumber.Name
    (fun val => { Label := val.Label, Name := val.Name, Value := trimSpace val.Value,
                  Format := val.Format, Min := val.Min, Max := val.Max,
                  Step := val.Step }) item.Numbers
  let prop : NumberProperty :=
    { Name := item.Name
      Label := item.Label
      Group := item.Group
      Permissions := item.Perm
      State := item.State
      Timeout := 0
      Values := values
      LastUpdated := now
      Messages := if item.Message.length > 0 then
          [{ Message := item.Message, Timestamp := now }] else [] }
  let device := { device with NumberProperties := alInsert item.Name prop device.NumberProperties }
  { c with devices := alInsert item.Device device c.devices }

/-- Dispatch an inbound `defLightVector`. -/
def INDIClient.defLightVector (now : Time) (c : INDIClient) (item : defLightVector) :
    INDIClient :=
  let device := c.findOrCreateDevice item.Device
  let values := defValues defLight.Name
    (fun val => { Label := val.Label, Name := val.Name, Value := trimSpace val.Value }) item.Lights
  let prop : LightProperty :=
    { Name := item.Name
      Label := item.Label
      Group := item.Group
      State := item.State
      Values := values
      LastUpdated := now
      Messages := if item.Message.length > 0 then
          [{ Message := item.Message, Timestamp := now }] else [] }
  let device := { device with LightProperties := alInsert item.Name prop device.LightProperties }
  { c with devices := alInsert item.Device device c.devices }

/-- Dispatch an inbound `defBLOBVector`: values start with empty payload
path and zero size (neither the `timeout` nor the `perm` attribute is
copied; the Go struct literal leaves both at their zero values). -/
def INDIClient.defBlobVector (now : Time) (c : INDIClient) (item : defBlobVector) :
    INDIClient :=
  let device := c.findOrCreateDevice item.Device
  let values := defValues defBlob.Name
    (fun val => { Label := val.Label, Name := val.Name, Value := "", Size := 0 }) item.Blobs
  let prop : BlobProperty :=
    { Name := item.Name
      Label := item.Label
      Group := item.Group
      State := item.State
      Permissions := ""
      Timeout := 0
      Values := values
      LastUpdated := now
      Messages := if item.Message.length > 0 then
          [{ Message := item.Message, Timestamp := now }] else [] }
  let device := { device with BlobProperties := alInsert item.Name prop device.BlobProperties }
  { c with devices := alInsert item.Device device c.devices }

/-! ## Message dispatcher: update elements

Every `set*Vector` handler walks the element's inner values and, for each
name already present in the property's value map, replaces the stored
value; unknown names are skipped.  `applySets` is that loop, generic in
the value record and the per-value update. -/

/-- The `set*Vector` inner-value loop: update values whose name is known,
drop the rest. -/
def applySets (key : β → String) (upd : α → β → α)
    (vs : List (String × α)) (items : List β) : List (String × α) :=
  items.foldl (fun acc it =>
    match alFind (key it) acc with
    | none => acc
    | some v => alInsert (key it) (upd v it) acc) vs

/-- Dispatch an inbound `setSwitchVector`. -/
def INDIClient.setSwitchVector (now : Time) (parse : String → Option Time)
    (c : INDIClient) (item : setSwitchVector) : INDIClient :=
  match c.findDevice item.Device with
  | none => c
  | some device =>
    match alFind item.Name device.SwitchProperties with
    | none => c
    | some prop =>
      let prop := { prop with
        State := item.State
        Timeout := item.Timeout
        LastUpdated := resolveTime now parse item.Timestamp }
      let prop := { prop with
        Values := applySets oneSwitch.Name
          (fun v val => { v with Value := trimSpace val.Value }) prop.Values item.Switches }
      let prop := if item.Message.length > 0 then
          { prop with Messages := prop.Messages ++
              [{ Message := item.Message, Timestamp := now }] }
        else prop
      let device := { device with
        SwitchProperties := alInsert item.Name prop device.SwitchProperties }
      { c with devices := alInsert item.Device device c.devices }

/-- Dispatch an inbound `setTextVector`. -/
def INDIClient.setTextVector (now : Time) (parse : String → Option Time)
    (c : INDIClient) (item : setTextVector) : INDIClient :=
  match c.findDevice item.Device with
  | none => c
  | some device =>
    match alFind item.Name device.TextProperties with
    | none => c
    | some prop =>
      let prop := { prop with
        State := item.State
        Timeout := item.Timeout
        LastUpdated := resolveTime now parse item.Timestamp }
      let prop := { prop with
        Values := applySets oneText.Name
          (fun v val => { v with Value := trimSpace val.Value }) prop.Values item.Texts }
      let prop := if item.Message.length > 0 then
          { prop with Messages := prop.Messages ++
              [{ Message := item.Message, Timestamp := now }] }
        else prop
      let device := { device with
        TextProperties := alInsert item.Name prop device.TextProperties }
      { c with devices := alInsert item.Device device c.devices }

/-- Dispatch an inbound `setNumberVector`. -/
def INDIClient.setNumberVector (now : Time) (parse : String → Option Time)
    (c : INDIClient) (item : setNumberVector) : INDIClient :=
  match c.findDevice item.Device with
  | none => c
  | some device =>
    match alFind item.Name device.NumberProperties with
    | none => c
    | some prop =>
      let prop := { prop with
        State := item.State
        Timeout := item.Timeout
        LastUpdated := resolveTime now parse item.Timestamp }
      let prop := { prop with
        Values := applySets oneNumber.Name
          (fun v val => { v with Value := trimSpace val.Value }) prop.Values item.Numbers }
      let prop := if item.Message.length > 0 then
          { prop with Messages := prop.Messages ++
              [{ Message := item.Message, Timestamp := now }] }
        else prop
      let device := { device with
        NumberProperties := alInsert item.Name prop device.NumberProperties }
      { c with devices := alInsert item.Device device c.devices }

/-- Dispatch an inbound `setLightVector` (lights carry no timeout). -/
def INDIClient.setLightVector (now : Time) (parse : String → Option Time)
    (c : INDIClient) (item : setLightVector) : INDIClient :=
  match c.findDevice item.Device with
  | none => c
  | some device =>
    match alFind item.Name device.LightProperties with
    | none => c
    | some prop =>
      let prop := { prop with
        State := item.State
        LastUpdated := resolveTime now parse item.Timestamp }
      let prop := { prop with
        Values := applySets oneLight.Name
          (fun v val => { v with Value := trimSpace val.Value }) prop.Values item.Lights }
      let prop := if item.Message.length > 0 then
          { prop with Messages := prop.Messages ++
              [{ Message := item.Message, Timestamp := now }] }
        else prop
      let device := { device with
        LightProperties := alInsert item.Name prop device.LightProperties }
      { c with devices := alInsert item.Device device c.devices }

/-! ## BLOB sink (`setBlobVector`) -/

/-- Sink path for one `oneBLOB` entry:
`fmt.Sprintf("%s_%s_%s%s", item.Device, item.Name, val.Name, val.Format)`. -/
def blobFileName (item : setBlobVector) (val : oneBlob) : String :=
  item.Device ++ "_" ++ item.Name ++ "_" ++ val.Name ++ val.Format

/-- Process one `oneBLOB` entry against the current value map and
filesystem: skip undefined names; otherwise create/truncate the sink file
with the base64-decoded payload (trimmed first) and, on a successful
decode, record the sink path and the bytes written on the value. -/
def blobStep (item : setBlobVector)
    (acc : List (String × BlobValue) × List (String × List Nat)) (val : oneBlob) :
    List (String × BlobValue) × List (String × List Nat) :=
  match alFind val.Name acc.1 with
  | none => acc
  | some v =>
    let fname := blobFileName item val
    let dec := b64Decode (trimSpace val.Value)
    let fs1 := alInsert fname dec.1 acc.2
    if dec.2 then
      (alInsert val.Name { v with Value := fname, Size := (dec.1.length : Int) } acc.1, fs1)
    else
      (acc.1, fs1)

/-- Dispatch an inbound `setBLOBVector`, decoding each defined entry's
payload into the filesystem. -/
def INDIClient.setBlobVector (now : Time) (parse : String → Option Time)
    (c : INDIClient) (item : setBlobVector) : INDIClient :=
  match c.findDevice item.Device with
  | none => c
  | some device =>
    match alFind item.Name device.BlobProperties with
    | none => c
    | some prop =>
      let prop := { prop with
        State := item.State
        Timeout := item.Timeout
        LastUpdated := resolveTime now parse item.Timestamp }
      let r := item.Blobs.foldl (blobStep item) (prop.Values, c.fs)
      let prop := { prop with Values := r.1 }
      let prop := if item.Message.length > 0 then
          { prop with Messages := prop.Messages ++
              [{ Message := item.Message, Timestamp := now }] }
        else prop
      let device := { device with
        BlobProperties := alInsert item.Name prop device.BlobProperties }
      { c with devices := alInsert item.Device device c.devices, fs := r.2 }

/-! ## Deletion (`delProperty`) -/

/-- Dispatch an inbound `delProperty`: no device name clears the registry;
a device name alone deletes the device; both names delete the property
from all five kind maps (creating the device record if absent, via
`findOrCreateDevice`). -/
def INDIClient.delProperty (c : INDIClient) (item : delProperty) : INDIClient :=
  if item.Device.length = 0 then
    { c with devices := [] }
  else if item.Name.length = 0 then
    { c with devices := alErase item.Device c.devices }
  else
    let device := c.findOrCreateDevice item.Device
    let device := { device with
      TextProperties := alErase item.Name device.TextProperties
      NumberProperties := alErase item.Name device.NumberProperties
      SwitchProperties := alErase item.Name device.SwitchProperties
      LightProperties := alErase item.Name device.LightProperties
      BlobProperties := alErase item.Name device.BlobProperties }
    { c with devices := alInsert item.Device device c.devices }

/-! ## Concrete fixtures for witnesses and counterexamples -/

/-- A timestamp parser that always fails (every timestamp falls back to
the current wall-clock). -/
def parse0 : String → Option Time := fun _ => none

/-- A freshly constructed client with an empty registry. -/
def cEmpty : INDIClient :=
  { devices := [], fs := [], write := [] }

/-- A read-write switch property with a single value `s1`. -/
def propSw : SwitchProperty :=
  { Name := "p"
    Label := "P"
    Group := "g"
    State := PropertyStateIdle
    Timeout := 0
    LastUpdated := 0
    Messages := []
    Rule := "OneOfMany"
    Permissions := PropertyPermissionReadWrite
    Values := [("s1", { Name := "s1", Label := "S1", Value := SwitchStateOff })] }

/-- A device carrying only the switch property `p`. -/
def devSw : Device :=
  { Name := "d"
    TextProperties := []
    SwitchProperties := [("p", propSw)]
    NumberProperties := []
    BlobProperties := []
    LightProperties := []
    Messages := [] }

/-- A client whose registry holds the device `d`. -/
def cSw : INDIClient :=
  { devices := [("d", devSw)], fs := [], write := [] }

/-- An inbound `setSwitchVector` updating `s1` with padded character data
and carrying a message. -/
def itemSw : setSwitchVector :=
  { Device := "d"
    Name := "p"
    State := PropertyStateOk
    Timeout := 3
    Timestamp := ""
    Message := "hello"
    Switches := [{ Name := "s1", Value := " On " }] }

/-- A BLOB property defining the single value `blob1` with no payload yet. -/
def propBlob : BlobProperty :=
  { Name := "prop1"
    Label := ""
    Group := ""
    State := PropertyStateIdle
    LastUpdated := 0
    Messages := []
    Permissions := ""
    Timeout := 0
    Values := [("blob1", { Name := "blob1", Label := "label1", Value := "", Size := 0 })] }

/-- A device carrying only the BLOB property `prop1`. -/
def devBlob : Device :=
  { Name := "dev1"
    TextProperties := []
    SwitchProperties := []
    NumberProperties := []
    BlobProperties := [("prop1", propBlob)]
    LightProperties := []
    Messages := [] }

/-- A client whose registry holds the device `dev1`. -/
def cBlob : INDIClient :=
  { devices := [("dev1", devBlob)], fs := [], write := [] }

/-- A `oneBLOB` entry carrying base64-encoded `1234567890`. -/
def blobOne : oneBlob :=
  { Name := "blob1", Size := 10, Format := ".fit", Value := "MTIzNDU2Nzg5MA==" }

/-- An inbound `setBLOBVector` carrying base64-encoded `1234567890`. -/
def itemBlob : setBlobVector :=
  { Device := "dev1"
    Name := "prop1"
    State := PropertyStateOk
    Timeout := 0
    Timestamp := ""
    Message := ""
    Blobs := [blobOne] }

/-- A `defSwitchVector` declaring a nonzero timeout attribute. -/
def itemT5 : defSwitchVector :=
  { Device := "Camera"
    Name := "Binning"
    Label := "Binning"
    Group := ""
    State := PropertyStateOk
    Perm := PropertyPermissionWriteOnly
    Rule := "OneOfMany"
    Timeout := 5
    Timestamp := ""
    Message := ""
    Switches := [{ Name := "One", Label := "1:1", Value := "Off" }] }

/-- A read-only text property defining no values at all. -/
def roProp : TextProperty :=
  { Name := "p"
    Label := ""
    Group := ""
    State := PropertyStateIdle
    Timeout := 0
    LastUpdated := 0
    Messages := []
    Permissions := PropertyPermissionReadOnly
    Values := [] }

/-- A client holding device `d` with only the read-only text property. -/
def cRo : INDIClient :=
  { devices := [("d",
      { Name := "d"
        TextProperties := [("p", roProp)]
        SwitchProperties := []
        NumberProperties := []
        BlobProperties := []
        LightProperties := []
        Messages := [] })]
    fs := []
    write := [] }

/-- The expected client state after `SetSwitchValue("d", "p", "s1", On)`
on `cSw`: the property stored Busy and the one-value command enqueued. -/
def cSwBusy : INDIClient :=
  { devices := [("d",
      { Name := "d"
        TextProperties := []
        SwitchProperties := [("p", { propSw with State := PropertyStateBusy })]
        NumberProperties := []
        BlobProperties := []
        LightProperties := []
        Messages := [] })]
    fs := []
    write := [Command.newSwitchVector
      { Device := "d"
        Name := "p"
        Timestamp := ""
        Switches := [{ Name := "s1", Value := SwitchStateOn }] }] }

/-- A `delProperty` naming both the device `d` and the property `p`. -/
def itemDel : delProperty :=
  { Device := "d", Name := "p", Timestamp := "", Message := "" }

/-- A `delProperty` naming a device and property absent from `cEmpty`. -/
def itemDel9 : delProperty :=
  { Device := "D", Name := "P", Timestamp := "", Message := "" }

/-! ## Lemmas about the association-list map model -/

theorem alFind_alErase_self (k : String) (m : List (String × α)) :
    alFind k (alErase k m) = none := by
  induction m with
  | nil => rfl
  | cons p r ih => by_cases h : p.1 = k <;> simp [alErase, alFind, h, ih]

theorem alFind_alErase_ne (hnk : n ≠ k) (m : List (String × α)) :
    alFind n (alErase k m) = alFind n m := by
  have hkn : ¬ k = n := fun he => hnk he.symm
  induction m with
  | nil => rfl
  | cons p r ih =>
    by_cases h : p.1 = k
    · have hpn : ¬ p.1 = n := by
        intro he
        exact hnk (he ▸ h)
      simp [alErase, alFind, h, hpn, hkn, ih]
    · by_cases hpn : p.1 = n <;> simp [alErase, alFind, h, hpn, hnk, ih]

theorem alFind_alInsert_self (k : String) (v : α) (m : List (String × α)) :
    alFind k (alInsert k v m) = some v := by
  unfold alInsert
  induction m with
  | nil => simp [alFind, alErase]
  | cons p r ih => by_cases h : p.1 = k <;> simp [alErase, alFind, h, ih]

theorem alFind_alInsert_ne (hnk : n ≠ k) (v : α) (m : List (String × α)) :
    alFind n (alInsert k v m) = alFind n m := by
  unfold alInsert
  have hkn : ¬ k = n := fun he => hnk he.symm
  induction m with
  | nil => simp [alFind, alErase, hkn]
  | cons p r ih =>
    by_cases h : p.1 = k
    · have hpn : ¬ p.1 = n := by
        intro he
        exact hnk (he ▸ h)
      simp [alErase, alFind, h, hpn, hkn, ih]
    · by_cases hpn : p.1 = n <;> simp [alErase, alFind, h, hpn, hnk, ih]

theorem alCount_append (k : String) (l₁ l₂ : List (String × α)) :
    alCount k (l₁ ++ l₂) = alCount k l₁ + alCount k l₂ := by
  induction l₁ with
  | nil => simp [alCount]
  | cons p r ih => simp [alCount, ih]; omega

theorem alCount_alErase_self (k : String) (m : List (String × α)) :
    alCount k (alErase k m) = 0 := by
  induction m with
  | nil => rfl
  | cons p r ih => by_cases h : p.1 = k <;> simp [alErase, alCount, h, ih]

theorem alCount_alInsert_self (k : String) (v : α) (m : List (String × α)) :
    alCount k (alInsert k v m) = 1 := by
  simp [alInsert, alCount_append, alCount_alErase_self, alCount]

theorem alErase_alErase (k : String) (m : List (String × α)) :
    alErase k (alErase k m) = alErase k m := by
  induction m with
  | nil => rfl
  | cons p r ih => by_cases h : p.1 = k <;> simp [alErase, h, ih]

/-! ## Lemmas about the `set*Vector` inner-value loop -/

theorem applySets_cons (key : β → String) (upd : α → β → α) (vs : List (String × α))
    (it : β) (items : List β) :
    applySets key upd vs (it :: items) =
      applySets key upd
        (match alFind (key it) vs with
         | none => vs
         | some v => alInsert (key it) (upd v it) vs) items := rfl

theorem applySets_find_not_mem (key : β → String) (upd : α → β → α)
    (vs : List (String × α)) (items : List β)
    (h : ∀ it ∈ items, key it ≠ n) :
    alFind n (applySets key upd vs items) = alFind n vs := by
  induction items generalizing vs with
  | nil => rfl
  | cons a rest ih =>
    rw [applySets_cons]
    have ha : key a ≠ n := h a (List.mem_cons_self a rest)
    have hrest : ∀ it ∈ rest, key it ≠ n := fun it hit => h it (List.mem_cons_of_mem a hit)
    cases hfa : alFind (key a) vs with
    | none => exact ih vs hrest
    | some v =>
      rw [ih _ hrest]
      exact alFind_alInsert_ne (Ne.symm ha) _ _

theorem applySets_find_absent (key : β → String) (upd : α → β → α)
    (vs : List (String × α)) (items : List β)
    (h : alFind n vs = none) :
    alFind n (applySets key upd vs items) = none := by
  induction items generalizing vs with
  | nil => exact h
  | cons a rest ih =>
    rw [applySets_cons]
    cases hfa : alFind (key a) vs with
    | none => exact ih vs h
    | some v =>
      apply ih
      by_cases hk : key a = n
      · rw [hk, h] at hfa
        cases hfa
      · rw [alFind_alInsert_ne (fun he => hk he.symm)]
        exact h

theorem applySets_find_mem (key : β → String) (upd : α → β → α)
    (vs : List (String × α)) (items : List β) (it : β) (v : α)
    (hnd : (items.map key).Nodup) (hit : it ∈ items)
    (hv : alFind (key it) vs = some v) :
    alFind (key it) (applySets key upd vs items) = some (upd v it) := by
  induction items generalizing vs with
  | nil => cases hit
  | cons a rest ih =>
    rw [List.map_cons, List.nodup_cons] at hnd
    obtain ⟨hka, hrest⟩ := hnd
    rw [applySets_cons]
    rcases List.mem_cons.mp hit with h1 | h1
    · subst h1
      cases hfa : alFind (key it) vs with
      | none =>
        rw [hv] at hfa
        cases hfa
      | some w =>
        have hw : w = v := by
          rw [hv] at hfa
          injection hfa with he
          exact he.symm
        subst hw
        have hnotin : ∀ b ∈ rest, key b ≠ key it := by
          intro b hb he
          exact hka (he ▸ List.mem_map_of_mem key hb)
        rw [applySets_find_not_mem key upd _ rest hnotin]
        exact alFind_alInsert_self _ _ _
    · have hne : key a ≠ key it := by
        intro he
        exact hka (he ▸ List.mem_map_of_mem key h1)
      cases hfa : alFind (key a) vs with
      | none => exact ih vs hrest h1 hv
      | some w =>
        apply ih _ hrest h1
        rw [alFind_alInsert_ne (Ne.symm hne), hv]

/-! ## Lemmas about the `def*Vector` inner-value loop -/

theorem defValuesAux_find_not_mem (key : β → String) (mk : β → α)
    (acc : List (String × α)) (items : List β)
    (h : ∀ it ∈ items, key it ≠ n) :
    alFind n (items.foldl (fun vs it => alInsert (key it) (mk it) vs) acc) = alFind n acc := by
  induction items generalizing acc with
  | nil => rfl
  | cons a rest ih =>
    rw [List.foldl_cons]
    have ha : key a ≠ n := h a (List.mem_cons_self a rest)
    have hrest : ∀ it ∈ rest, key it ≠ n := fun it hit => h it (List.mem_cons_of_mem a hit)
    rw [ih _ hrest]
    exact alFind_alInsert_ne (Ne.symm ha) _ _

theorem defValuesAux_find_mem (key : β → String) (mk : β → α)
    (acc : List (String × α)) (items : List β) (it : β)
    (hnd : (items.map key).Nodup) (hit : it ∈ items) :
    alFind (key it) (items.foldl (fun vs i => alInsert (key i) (mk i) vs) acc)
      = some (mk it) := by
  induction items generalizing acc with
  | nil => cases hit
  | cons a rest ih =>
    rw [List.map_cons, List.nodup_cons] at hnd
    obtain ⟨hka, hrest⟩ := hnd
    rw [List.foldl_cons]
    rcases List.mem_cons.mp hit with h1 | h1
    · subst h1
      have hnotin : ∀ b ∈ rest, key b ≠ key it := by
        intro b hb he
        exact hka (he ▸ List.mem_map_of_mem key hb)
      rw [defValuesAux_find_not_mem key mk _ rest hnotin]
      exact alFind_alInsert_self _ _ _
    · exact ih _ hrest h1

theorem defValues_find_mem (key : β → String) (mk : β → α) (items : List β) (it : β)
    (hnd : (items.map key).Nodup) (hit : it ∈ items) :
    alFind (key it) (defValues key mk items) = some (mk it) :=
  defValuesAux_find_mem key mk [] items it hnd hit

theorem defValues_find_not_mem (key : β → String) (mk : β → α) (items : List β)
    (h : n ∉ items.map key) :
    alFind n (defValues key mk items) = none := by
  unfold defValues
  rw [defValuesAux_find_not_mem key mk [] items]
  · rfl
  · intro it hit he
    exact h (he ▸ List.mem_map_of_mem key hit)

/-! ## Lemmas about the BLOB sink loop -/

theorem blobStep_vals_ne (item : setBlobVector)
    (acc : List (String × BlobValue) × List (String × List Nat)) (val : oneBlob)
    (hne : val.Name ≠ n) :
    alFind n (blobStep item acc val).1 = alFind n acc.1 := by
  unfold blobStep
  cases hfa : alFind val.Name acc.1 with
  | none => rfl
  | some v =>
    cases hd : (b64Decode (trimSpace val.Value)).2 <;>
      simp [hd, alFind_alInsert_ne (Ne.symm hne)]

theorem blobStep_vals_absent (item : setBlobVector)
    (acc : List (String × BlobValue) × List (String × List Nat)) (val : oneBlob)
    (h : alFind n acc.1 = none) :
    alFind n (blobStep item acc val).1 = none := by
  by_cases hne : val.Name = n
  · unfold blobStep
    rw [hne, h]
    exact h
  · rw [blobStep_vals_ne item acc val hne]
    exact h

theorem blobStep_fs_ne (item : setBlobVector)
    (acc : List (String × BlobValue) × List (String × List Nat)) (val : oneBlob)
    (hne : blobFileName item val ≠ fn) :
    alFind fn (blobStep item acc val).2 = alFind fn acc.2 := by
  unfold blobStep
  cases hfa : alFind val.Name acc.1 with
  | none => rfl
  | some v =>
    cases hd : (b64Decode (trimSpace val.Value)).2 <;>
      simp [hd, alFind_alInsert_ne (Ne.symm hne)]

theorem blobFold_vals_not_mem (item : setBlobVector) (blobs : List oneBlob)
    (acc : List (String × BlobValue) × List (String × List Nat))
    (h : ∀ val ∈ blobs, val.Name ≠ n) :
    alFind n (blobs.foldl (blobStep item) acc).1 = alFind n acc.1 := by
  induction blobs generalizing acc with
  | nil => rfl
  | cons a rest ih =>
    rw [List.foldl_cons]
    rw [ih _ (fun val hv => h val (List.mem_cons_of_mem a hv))]
    exact blobStep_vals_ne item acc a (h a (List.mem_cons_self a rest))

theorem blobFold_vals_absent (item : setBlobVector) (blobs : List oneBlob)
    (acc : List (String × BlobValue) × List (String × List Nat))
    (h : alFind n acc.1 = none) :
    alFind n (blobs.foldl (blobStep item) acc).1 = none := by
  induction blobs generalizing acc with
  | nil => exact h
  | cons a rest ih =>
    rw [List.foldl_cons]
    exact ih _ (blobStep_vals_absent item acc a h)

theorem blobFold_fs_not_mem (item : setBlobVector) (blobs : List oneBlob)
    (acc : List (String × BlobValue) × List (String × List Nat))
    (h : ∀ val ∈ blobs, blobFileName item val ≠ fn) :
    alFind fn (blobs.foldl (blobStep item) acc).2 = alFind fn acc.2 := by
  induction blobs generalizing acc with
  | nil => rfl
  | cons a rest ih =>
    rw [List.foldl_cons]
    rw [ih _ (fun val hv => h val (List.mem_cons_of_mem a hv))]
    exact blobStep_fs_ne item acc a (h a (List.mem_cons_self a rest))

theorem blobFold_mem (item : setBlobVector) (blobs : List oneBlob)
    (acc : List (String × BlobValue) × List (String × List Nat)) (bl : oneBlob)
    (v : BlobValue)
    (hnames : (blobs.map oneBlob.Name).Nodup)
    (hfiles : (blobs.map (blobFileName item)).Nodup)
    (hit : bl ∈ blobs)
    (hv : alFind bl.Name acc.1 = some v)
    (hdec : (b64Decode (trimSpace bl.Value)).2 = true) :
    alFind bl.Name (blobs.foldl (blobStep item) acc).1
      = some { v with Value := blobFileName item bl,
                      Size := ((b64Decode (trimSpace bl.Value)).1.length : Int) } ∧
    alFind (blobFileName item bl) (blobs.foldl (blobStep item) acc).2
      = some (b64Decode (trimSpace bl.Value)).1 := by
  induction blobs generalizing acc with
  | nil => cases hit
  | cons a rest ih =>
    rw [List.map_cons, List.nodup_cons] at hnames hfiles
    obtain ⟨hna, hnrest⟩ := hnames
    obtain ⟨hfa, hfrest⟩ := hfiles
    rw [List.foldl_cons]
    rcases List.mem_cons.mp hit with h1 | h1
    · subst h1
      have hstep : blobStep item acc bl =
          (alInsert bl.Name { v with Value := blobFileName item bl,
                                     Size := ((b64Decode (trimSpace bl.Value)).1.length : Int) } acc.1,
           alInsert (blobFileName item bl) (b64Decode (trimSpace bl.Value)).1 acc.2) := by
        unfold blobStep
        rw [hv]
        simp [hdec]
      rw [hstep]
      constructor
      · rw [blobFold_vals_not_mem item rest _ ?_]
        · exact alFind_alInsert_self _ _ _
        · intro val hval he
          apply hna
          rw [← he]
          exact List.mem_map_of_mem oneBlob.Name hval
      · rw [blobFold_fs_not_mem item rest _ ?_]
        · exact alFind_alInsert_self _ _ _
        · intro val hval he
          apply hfa
          rw [← he]
          exact List.mem_map_of_mem (blobFileName item) hval
    · have hne : a.Name ≠ bl.Name := by
        intro he
        exact hna (he ▸ List.mem_map_of_mem oneBlob.Name h1)
      have hv' : alFind bl.Name (blobStep item acc a).1 = some v := by
        rw [blobStep_vals_ne item acc a hne]
        exact hv
      exact ih _ hnrest hfrest h1 hv'

/-! ## Claim C7: GetProperties -/

/-- Claim C7: `GetProperties(device, property)` with a non-empty property
name and an empty device name fails with `PropertyWithoutDevice` and does
not enqueue any command; in every other case it enqueues a `getProperties`
command with version 1.7 and returns success. -/
theorem GetProperties_property_without_device (c : INDIClient) (dName pName : String) :
    (pName.length > 0 → dName.length = 0 →
      c.GetProperties dName pName = (c, some Err.PropertyWithoutDevice)) ∧
    (¬ (pName.length > 0 ∧ dName.length = 0) →
      c.GetProperties dName pName =
        ({ c with write := c.write ++
            [Command.getProperties { Version := "1.7", Device := dName, Name := pName }] },
          none)) := by
  constructor
  · intro h1 h2
    unfold INDIClient.GetProperties
    rw [if_pos ⟨h1, h2⟩]
  · intro h
    unfold INDIClient.GetProperties
    rw [if_neg h]

/-- Claim C7 witness: `GetProperties("", "prop1")` fails with
`PropertyWithoutDevice` and leaves the client untouched. -/
theorem GetProperties_property_without_device_witness :
    "prop1".length > 0 ∧ "".length = 0 ∧
    cEmpty.GetProperties "" "prop1" = (cEmpty, some Err.PropertyWithoutDevice) :=
  ⟨by decide, by decide,
    (GetProperties_property_without_device cEmpty "" "prop1").1 (by decide) (by decide)⟩

/-! ## Claim C6: EnableBlob validation -/

/-- Claim C6: `EnableBlob(device, property, mode)` returns
`InvalidBlobEnable` when `mode` is outside {Never, Also, Only}; it returns
`DeviceNotFound` when the named device is not in the registry; otherwise it
enqueues an `enableBLOB` command and returns success. -/
theorem EnableBlob_validates (c : INDIClient) (dName pName : String) (mode : BlobEnable) :
    (mode ≠ BlobEnableAlso ∧ mode ≠ BlobEnableNever ∧ mode ≠ BlobEnableOnly →
      c.EnableBlob dName pName mode = (c, some Err.InvalidBlobEnable)) ∧
    ((mode = BlobEnableAlso ∨ mode = BlobEnableNever ∨ mode = BlobEnableOnly) →
      (c.findDevice dName = none →
        c.EnableBlob dName pName mode = (c, some Err.DeviceNotFound)) ∧
      (∀ dev, c.findDevice dName = some dev →
        c.EnableBlob dName pName mode =
          ({ c with write := c.write ++
              [Command.enableBlob { Device := dName, Name := pName, Value := mode }] },
            none))) := by
  constructor
  · intro h
    unfold INDIClient.EnableBlob
    rw [if_pos h]
  · intro h
    have hcond : ¬ (mode ≠ BlobEnableAlso ∧ mode ≠ BlobEnableNever ∧ mode ≠ BlobEnableOnly) := by
      rcases h with h | h | h <;> simp [h]
    constructor
    · intro hdev
      unfold INDIClient.EnableBlob
      rw [if_neg hcond, hdev]
    · intro dev hdev
      unfold INDIClient.EnableBlob
      rw [if_neg hcond, hdev]

/-- Claim C6 witness: with device `d` registered, `EnableBlob("d", "",
Also)` succeeds and enqueues the `enableBLOB` command. -/
theorem EnableBlob_validates_witness :
    (BlobEnableAlso = BlobEnableAlso ∨ BlobEnableAlso = BlobEnableNever ∨
      BlobEnableAlso = BlobEnableOnly) ∧
    cSw.findDevice "d" = some devSw ∧
    cSw.EnableBlob "d" "" BlobEnableAlso =
      ({ cSw with write := cSw.write ++
          [Command.enableBlob { Device := "d", Name := "", Value := BlobEnableAlso }] },
        none) :=
  ⟨Or.inl rfl, by decide,
    ((EnableBlob_validates cSw "d" "" BlobEnableAlso).2 (Or.inl rfl)).2 devSw (by decide)⟩

/-! ## Claim C10: EnableBlob checks the mode before the device -/

/-- Claim C10: `EnableBlob` validates the mode before looking up the
device: when the mode is outside {Never, Also, Only} and the device is
also unknown, the returned error is `InvalidBlobEnable`, not
`DeviceNotFound`. -/
theorem EnableBlob_mode_before_device (c : INDIClient) (dName pName : String)
    (mode : BlobEnable)
    (hmode : mode ≠ BlobEnableAlso ∧ mode ≠ BlobEnableNever ∧ mode ≠ BlobEnableOnly)
    (hdev : c.findDevice dName = none) :
    c.EnableBlob dName pName mode = (c, some Err.InvalidBlobEnable) ∧
    (c.EnableBlob dName pName mode).2 ≠ some Err.DeviceNotFound := by
  have h1 : c.EnableBlob dName pName mode = (c, some Err.InvalidBlobEnable) := by
    unfold INDIClient.EnableBlob
    rw [if_pos hmode]
  refine ⟨h1, ?_⟩
  rw [h1]
  simp

/-- Claim C10 witness: an unknown mode on an empty registry yields
`InvalidBlobEnable`. -/
theorem EnableBlob_mode_before_device_witness :
    ("bogus" ≠ BlobEnableAlso ∧ "bogus" ≠ BlobEnableNever ∧ "bogus" ≠ BlobEnableOnly) ∧
    cEmpty.findDevice "X" = none ∧
    cEmpty.EnableBlob "X" "" "bogus" = (cEmpty, some Err.InvalidBlobEnable) :=
  ⟨by decide, by decide,
    (EnableBlob_mode_before_device cEmpty "X" "" "bogus" (by decide) (by decide)).1⟩

/-! ## Claim C9: delProperty on a missing device inserts a fresh device -/

/-- Claim C9: when a `delProperty` element carries both a device name and
a property name but the named device is absent from the registry, the
dispatcher stores a fresh empty device record under that name: the
registry gains a device as the result of a delete. -/
theorem delProperty_creates_missing_device (c : INDIClient) (item : delProperty)
    (hd : item.Device.length ≠ 0) (hn : item.Name.length ≠ 0)
    (hmiss : c.findDevice item.Device = none) :
    (INDIClient.delProperty c item).findDevice item.Device =
      some { Name := item.Device, TextProperties := [], SwitchProperties := [],
             NumberProperties := [], LightProperties := [], BlobProperties := [],
             Messages := [] } := by
  unfold INDIClient.delProperty
  rw [if_neg hd, if_neg hn]
  unfold INDIClient.findOrCreateDevice
  rw [hmiss]
  simp only [INDIClient.findDevice, alErase]
  exact alFind_alInsert_self _ _ _

/-- Claim C9 witness: deleting property `P` of the unregistered device `D`
creates an empty record for `D`. -/
theorem delProperty_creates_missing_device_witness :
    itemDel9.Device.length ≠ 0 ∧ itemDel9.Name.length ≠ 0 ∧
    cEmpty.findDevice itemDel9.Device = none ∧
    (INDIClient.delProperty cEmpty itemDel9).findDevice itemDel9.Device =
      some { Name := itemDel9.Device, TextProperties := [], SwitchProperties := [],
             NumberProperties := [], LightProperties := [], BlobProperties := [],
             Messages := [] } :=
  ⟨by decide, by decide, by decide,
    delProperty_creates_missing_device cEmpty itemDel9 (by decide) (by decide) (by decide)⟩

/-! ## Claim C8: Groups -/

/-- Claim C8: for every device, `Groups` returns the duplicate-free union
of the group labels of all five property maps (text, switch, number,
light, BLOB), sorted lexicographically in ascending order. -/
theorem Groups_sorted_dedup_union (d : Device) :
    d.Groups.Sorted (· ≤ ·) ∧ d.Groups.Nodup ∧
    (∀ g, g ∈ d.Groups ↔
      ((∃ e ∈ d.TextProperties, e.2.Group = g) ∨
       (∃ e ∈ d.SwitchProperties, e.2.Group = g) ∨
       (∃ e ∈ d.NumberProperties, e.2.Group = g) ∨
       (∃ e ∈ d.LightProperties, e.2.Group = g) ∨
       (∃ e ∈ d.BlobProperties, e.2.Group = g))) := by
  refine ⟨?_, ?_, ?_⟩
  · exact List.sorted_insertionSort _ _
  · exact ((List.perm_insertionSort _ _).nodup_iff).mpr (List.nodup_dedup _)
  · intro g
    simp only [Device.Groups]
    rw [(List.perm_insertionSort _ _).mem_iff, List.mem_dedup]
    simp only [List.mem_append, List.mem_map]
    constructor
    · rintro ((((⟨e, he, hg⟩ | ⟨e, he, hg⟩) | ⟨e, he, hg⟩) | ⟨e, he, hg⟩) | ⟨e, he, hg⟩) <;>
        [exact Or.inr (Or.inr (Or.inr (Or.inl ⟨e, he, hg⟩)));
         exact Or.inl ⟨e, he, hg⟩;
         exact Or.inr (Or.inl ⟨e, he, hg⟩);
         exact Or.inr (Or.inr (Or.inr (Or.inr ⟨e, he, hg⟩)));
         exact Or.inr (Or.inr (Or.inl ⟨e, he, hg⟩))]
    · rintro (⟨e, he, hg⟩ | ⟨e, he, hg⟩ | ⟨e, he, hg⟩ | ⟨e, he, hg⟩ | ⟨e, he, hg⟩) <;>
        [exact Or.inl (Or.inl (Or.inl (Or.inr ⟨e, he, hg⟩)));
         exact Or.inl (Or.inl (Or.inr ⟨e, he, hg⟩));
         exact Or.inr ⟨e, he, hg⟩;
         exact Or.inl (Or.inl (Or.inl (Or.inl ⟨e, he, hg⟩)));
         exact Or.inl (Or.inr ⟨e, he, hg⟩)]

/-! ## Claim C4: delProperty three-tier rule -/

/-- Claim C4: a `delProperty` with an empty device name empties the entire
registry; with a device name and no property name it removes exactly that
device and is idempotent; with both device and property name it removes
that property from all five kind-maps of that device and removes nothing
else. -/
theorem delProperty_three_tier (c : INDIClient) (item : delProperty) :
    (item.Device.length = 0 → (INDIClient.delProperty c item).devices = []) ∧
    (item.Device.length ≠ 0 → item.Name.length = 0 →
      ((INDIClient.delProperty c item).findDevice item.Device = none ∧
       (∀ n, n ≠ item.Device →
          (INDIClient.delProperty c item).findDevice n = c.findDevice n) ∧
       INDIClient.delProperty (INDIClient.delProperty c item) item
          = INDIClient.delProperty c item)) ∧
    (item.Device.length ≠ 0 → item.Name.length ≠ 0 →
      ∀ dev, c.findDevice item.Device = some dev →
        ∃ dev', (INDIClient.delProperty c item).findDevice item.Device = some dev' ∧
          dev'.Name = dev.Name ∧ dev'.Messages = dev.Messages ∧
          dev'.TextProperties = alErase item.Name dev.TextProperties ∧
          dev'.NumberProperties = alErase item.Name dev.NumberProperties ∧
          dev'.SwitchProperties = alErase item.Name dev.SwitchProperties ∧
          dev'.LightProperties = alErase item.Name dev.LightProperties ∧
          dev'.BlobProperties = alErase item.Name dev.BlobProperties ∧
          alFind item.Name dev'.TextProperties = none ∧
          alFind item.Name dev'.NumberProperties = none ∧
          alFind item.Name dev'.SwitchProperties = none ∧
          alFind item.Name dev'.LightProperties = none ∧
          alFind item.Name dev'.BlobProperties = none ∧
          (∀ q, q ≠ item.Name →
            alFind q dev'.TextProperties = alFind q dev.TextProperties ∧
            alFind q dev'.NumberProperties = alFind q dev.NumberProperties ∧
            alFind q dev'.SwitchProperties = alFind q dev.SwitchProperties ∧
            alFind q dev'.LightProperties = alFind q dev.LightProperties ∧
            alFind q dev'.BlobProperties = alFind q dev.BlobProperties) ∧
          (∀ n, n ≠ item.Device →
            (INDIClient.delProperty c item).findDevice n = c.findDevice n)) := by
  refine ⟨?_, ?_, ?_⟩
  · intro h
    unfold INDIClient.delProperty
    rw [if_pos h]
  · intro hd hn
    have e : INDIClient.delProperty c item =
        { c with devices := alErase item.Device c.devices } := by
      unfold INDIClient.delProperty
      rw [if_neg hd, if_pos hn]
    refine ⟨?_, ?_, ?_⟩
    · rw [e]
      exact alFind_alErase_self _ _
    · intro n hne
      rw [e]
      exact alFind_alErase_ne hne _
    · rw [e]
      unfold INDIClient.delProperty
      rw [if_neg hd, if_pos hn]
      simp [alErase_alErase]
  · intro hd hn dev hdev
    have e : INDIClient.delProperty c item =
        { c with
          devices :=
            alInsert item.Device
              { dev with
                TextProperties := alErase item.Name dev.TextProperties
                NumberProperties := alErase item.Name dev.NumberProperties
                SwitchProperties := alErase item.Name dev.SwitchProperties
                LightProperties := alErase item.Name dev.LightProperties
                BlobProperties := alErase item.Name dev.BlobProperties }
              c.devices } := by
      unfold INDIClient.delProperty
      rw [if_neg hd, if_neg hn]
      unfold INDIClient.findOrCreateDevice
      rw [hdev]
    refine ⟨{ dev with
              TextProperties := alErase item.Name dev.TextProperties
              NumberProperties := alErase item.Name dev.NumberProperties
              SwitchProperties := alErase item.Name dev.SwitchProperties
              LightProperties := alErase item.Name dev.LightProperties
              BlobProperties := alErase item.Name dev.BlobProperties },
      ?_, rfl, rfl, rfl, rfl, rfl, rfl, rfl,
      alFind_alErase_self _ _, alFind_alErase_self _ _, alFind_alErase_self _ _,
      alFind_alErase_self _ _, alFind_alErase_self _ _, ?_, ?_⟩
    · rw [e]
      exact alFind_alInsert_self _ _ _
    · intro q hq
      exact ⟨alFind_alErase_ne hq _, alFind_alErase_ne hq _, alFind_alErase_ne hq _,
        alFind_alErase_ne hq _, alFind_alErase_ne hq _⟩
    · intro n hne
      rw [e]
      exact alFind_alInsert_ne hne _ _

/-- Claim C4 witness: deleting property `p` from device `d` keeps the
device registered and empties its switch map at key `p`. -/
theorem delProperty_three_tier_witness :
    itemDel.Device.length ≠ 0 ∧ itemDel.Name.length ≠ 0 ∧
    cSw.findDevice itemDel.Device = some devSw ∧
    ((INDIClient.delProperty cSw itemDel).findDevice itemDel.Device).isSome = true := by
  refine ⟨by decide, by decide, by decide, ?_⟩
  obtain ⟨dev', h1, -⟩ :=
    (delProperty_three_tier cSw itemDel).2.2 (by decide) (by decide) devSw (by decide)
  rw [h1]
  rfl

/-! ## Claim C5: Set*Value validation ladder -/

/-- Claim C5 counterexample: on a read-only property that does not define
the requested value name, `SetTextValue` returns `PropertyReadOnly`, not
`PropertyValueNotFound` as the claim's existence clause demands: the
permission check precedes the value-existence check. -/
theorem SetTextValue_ro_overrides_missing_value :
    alFind "x" roProp.Values = none ∧
    roProp.Permissions = PropertyPermissionReadOnly ∧
    (cRo.SetTextValue "d" "p" "x" "v").2 = some Err.PropertyReadOnly ∧
    (cRo.SetTextValue "d" "p" "x" "v").2 ≠ some Err.PropertyValueNotFound := by
  refine ⟨by decide, by decide, by decide, by decide⟩

/-- Claim C5 (amended): each `Set*Value` validates in the order device,
property, permission, value: a missing device yields `DeviceNotFound`, a
missing property `PropertyNotFound`, a read-only property
`PropertyReadOnly` (even when the value is also missing), and only then a
missing value `PropertyValueNotFound`, in each case without touching the
client; on success the property is stored with state Busy and the
enqueued `new*Vector` carries exactly the one changed value. -/
theorem SetValue_validation_ladder (c : INDIClient) :
    (∀ dName pName vName vVal,
      (c.findDevice dName = none →
        c.SetTextValue dName pName vName vVal = (c, some Err.DeviceNotFound)) ∧
      (∀ dev, c.findDevice dName = some dev →
        alFind pName dev.TextProperties = none →
        c.SetTextValue dName pName vName vVal = (c, some Err.PropertyNotFound)) ∧
      (∀ dev p, c.findDevice dName = some dev →
        alFind pName dev.TextProperties = some p →
        p.Permissions = PropertyPermissionReadOnly →
        c.SetTextValue dName pName vName vVal = (c, some Err.PropertyReadOnly)) ∧
      (∀ dev p, c.findDevice dName = some dev →
        alFind pName dev.TextProperties = some p →
        p.Permissions ≠ PropertyPermissionReadOnly →
        alFind vName p.Values = none →
        c.SetTextValue dName pName vName vVal = (c, some Err.PropertyValueNotFound)) ∧
      (∀ dev p v, c.findDevice dName = some dev →
        alFind pName dev.TextProperties = some p →
        p.Permissions ≠ PropertyPermissionReadOnly →
        alFind vName p.Values = some v →
        c.SetTextValue dName pName vName vVal =
          ({ c with
              devices := alInsert dName
                { dev with TextProperties :=
                    alInsert pName { p with State := PropertyStateBusy } dev.TextProperties }
                c.devices
              write := c.write ++
                [Command.newTextVector { Device := dName, Name := pName, Timestamp := "",
                                         Texts := [{ Name := vName, Value := vVal }] }] },
            none))) ∧
    (∀ dName pName vName vVal,
      (c.findDevice dName = none →
        c.SetNumberValue dName pName vName vVal = (c, some Err.DeviceNotFound)) ∧
      (∀ dev, c.findDevice dName = some dev →
        alFind pName dev.NumberProperties = none →
        c.SetNumberValue dName pName vName vVal = (c, some Err.PropertyNotFound)) ∧
      (∀ dev p, c.findDevice dName = some dev →
        alFind pName dev.NumberProperties = some p →
        p.Permissions = PropertyPermissionReadOnly →
        c.SetNumberValue dName pName vName vVal = (c, some Err.PropertyReadOnly)) ∧
      (∀ dev p, c.findDevice dName = some dev →
        alFind pName dev.NumberProperties = some p →
        p.Permissions ≠ PropertyPermissionReadOnly →
        alFind vName p.Values = none →
        c.SetNumberValue dName pName vName vVal = (c, some Err.PropertyValueNotFound)) ∧
      (∀ dev p v, c.findDevice dName = some dev →
        alFind pName dev.NumberProperties = some p →
        p.Permissions ≠ PropertyPermissionReadOnly →
        alFind vName p.Values = some v →
        c.SetNumberValue dName pName vName vVal =
          ({ c with
              devices := alInsert dName
                { dev with NumberProperties :=
                    alInsert pName { p with State := PropertyStateBusy } dev.NumberProperties }
                c.devices
              write := c.write ++
                [Command.newNumberVector { Device := dName, Name := pName, Timestamp := "",
                                           Numbers := [{ Name := vName, Value := vVal }] }] },
            none))) ∧
    (∀ dName pName vName vVal,
      (c.findDevice dName = none →
        c.SetSwitchValue dName pName vName vVal = (c, some Err.DeviceNotFound)) ∧
      (∀ dev, c.findDevice dName = some dev →
        alFind pName dev.SwitchProperties = none →
        c.SetSwitchValue dName pName vName vVal = (c, some Err.PropertyNotFound)) ∧
      (∀ dev p, c.findDevice dName = some dev →
        alFind pName dev.SwitchProperties = some p →
        p.Permissions = PropertyPermissionReadOnly →
        c.SetSwitchValue dName pName vName vVal = (c, some Err.PropertyReadOnly)) ∧
      (∀ dev p, c.findDevice dName = some dev →
        alFind pName dev.SwitchProperties = some p →
        p.Permissions ≠ PropertyPermissionReadOnly →
        alFind vName p.Values = none →
        c.SetSwitchValue dName pName vName vVal = (c, some Err.PropertyValueNotFound)) ∧
      (∀ dev p v, c.findDevice dName = some dev →
        alFind pName dev.SwitchProperties = some p →
        p.Permissions ≠ PropertyPermissionReadOnly →
        alFind vName p.Values = some v →
        c.SetSwitchValue dName pName vName vVal =
          ({ c with
              devices := alInsert dName
                { dev with SwitchProperties :=
                    alInsert pName { p with State := PropertyStateBusy } dev.SwitchProperties }
                c.devices
              write := c.write ++
                [Command.newSwitchVector { Device := dName, Name := pName, Timestamp := "",
                                           Switches := [{ Name := vName, Value := vVal }] }] },
            none))) ∧
    (∀ dName pName vName vVal vFormat vSize,
      (c.findDevice dName = none →
        c.SetBlobValue dName pName vName vVal vFormat vSize = (c, some Err.DeviceNotFound)) ∧
      (∀ dev, c.findDevice dName = some dev →
        alFind pName dev.BlobProperties = none →
        c.SetBlobValue dName pName vName vVal vFormat vSize
          = (c, some Err.PropertyNotFound)) ∧
      (∀ dev p, c.findDevice dName = some dev →
        alFind pName dev.BlobProperties = some p →
        p.Permissions = PropertyPermissionReadOnly →
        c.SetBlobValue dName pName vName vVal vFormat vSize
          = (c, some Err.PropertyReadOnly)) ∧
      (∀ dev p, c.findDevice dName = some dev →
        alFind pName dev.BlobProperties = some p →
        p.Permissions ≠ PropertyPermissionReadOnly →
        alFind vName p.Values = none →
        c.SetBlobValue dName pName vName vVal vFormat vSize
          = (c, some Err.PropertyValueNotFound)) ∧
      (∀ dev p v, c.findDevice dName = some dev →
        alFind pName dev.BlobProperties = some p →
        p.Permissions ≠ PropertyPermissionReadOnly →
        alFind vName p.Values = some v →
        c.SetBlobValue dName pName vName vVal vFormat vSize =
          ({ c with
              devices := alInsert dName
                { dev with BlobProperties :=
                    alInsert pName { p with State := PropertyStateBusy } dev.BlobProperties }
                c.devices
              write := c.write ++
                [Command.newBlobVector { Device := dName, Name := pName, Timestamp := "",
                                         Blobs := [{ Name := vName, Size := vSize,
                                                     Format := vFormat, Value := vVal }] }] },
            none))) := by
  refine ⟨?_, ?_, ?_, ?_⟩
  · intro dName pName vName vVal
    refine ⟨?_, ?_, ?_, ?_, ?_⟩
    · intro hdev
      simp only [INDIClient.SetTextValue, hdev]
    · intro dev hdev hprop
      simp only [INDIClient.SetTextValue, hdev, hprop]
    · intro dev p hdev hprop hro
      simp only [INDIClient.SetTextValue, hdev, hprop, hro, if_true]
    · intro dev p hdev hprop hro hval
      simp only [INDIClient.SetTextValue, hdev, hprop, if_neg hro, hval]
    · intro dev p v hdev hprop hro hval
      simp only [INDIClient.SetTextValue, hdev, hprop, if_neg hro, hval]
  · intro dName pName vName vVal
    refine ⟨?_, ?_, ?_, ?_, ?_⟩
    · intro hdev
      simp only [INDIClient.SetNumberValue, hdev]
    · intro dev hdev hprop
      simp only [INDIClient.SetNumberValue, hdev, hprop]
    · intro dev p hdev hprop hro
      simp only [INDIClient.SetNumberValue, hdev, hprop, hro, if_true]
    · intro dev p hdev hprop hro hval
      simp only [INDIClient.SetNumberValue, hdev, hprop, if_neg hro, hval]
    · intro dev p v hdev hprop hro hval
      simp only [INDIClient.SetNumberValue, hdev, hprop, if_neg hro, hval]
  · intro dName pName vName vVal
    refine ⟨?_, ?_, ?_, ?_, ?_⟩
    · intro hdev
      simp only [INDIClient.SetSwitchValue, hdev]
    · intro dev hdev hprop
      simp only [INDIClient.SetSwitchValue, hdev, hprop]
    · intro dev p hdev hprop hro
      simp only [INDIClient.SetSwitchValue, hdev, hprop, hro, if_true]
    · intro dev p hdev hprop hro hval
      simp only [INDIClient.SetSwitchValue, hdev, hprop, if_neg hro, hval]
    · intro dev p v hdev hprop hro hval
      simp only [INDIClient.SetSwitchValue, hdev, hprop, if_neg hro, hval]
  · intro dName pName vName vVal vFormat vSize
    refine ⟨?_, ?_, ?_, ?_, ?_⟩
    · intro hdev
      simp only [INDIClient.SetBlobValue, hdev]
    · intro dev hdev hprop
      simp only [INDIClient.SetBlobValue, hdev, hprop]
    · intro dev p hdev hprop hro
      simp only [INDIClient.SetBlobValue, hdev, hprop, hro, if_true]
    · intro dev p hdev hprop hro hval
      simp only [INDIClient.SetBlobValue, hdev, hprop, if_neg hro, hval]
    · intro dev p v hdev hprop hro hval
      simp only [INDIClient.SetBlobValue, hdev, hprop, if_neg hro, hval]

/-- Claim C5 witness: `SetSwitchValue("d", "p", "s1", On)` on a read-write
switch property succeeds, stores the property Busy, and enqueues the
one-value `newSwitchVector`. -/
theorem SetValue_validation_ladder_witness :
    cSw.findDevice "d" = some devSw ∧
    alFind "p" devSw.SwitchProperties = some propSw ∧
    propSw.Permissions ≠ PropertyPermissionReadOnly ∧
    (alFind "s1" propSw.Values).isSome = true ∧
    cSw.SetSwitchValue "d" "p" "s1" SwitchStateOn = (cSwBusy, none) := by
  refine ⟨by decide, by decide, by decide, by decide, ?_⟩
  rw [((SetValue_validation_ladder cSw).2.2.1 "d" "p" "s1" SwitchStateOn).2.2.2.2 devSw propSw
    { Name := "s1", Label := "S1", Value := SwitchStateOff }
    (by decide) (by decide) (by decide) (by decide)]
  decide

/-! ## Claim C3: def*Vector upsert -/

/-- Claim C3 counterexample: a `defSwitchVector` declaring `timeout="5"`
is stored with property timeout 0 — the dispatcher's struct literal never
copies the element's timeout attribute, so the declared attributes are not
all preserved verbatim. -/
theorem defSwitchVector_drops_timeout_attr :
    itemT5.Timeout = 5 ∧
    ((INDIClient.defSwitchVector 0 cEmpty itemT5).findDevice "Camera").map
        (fun d => (alFind "Binning" d.SwitchProperties).map (fun p => p.Timeout))
      = some (some 0) :=
  ⟨rfl, by decide⟩

/-- Claim C3 (amended): for every inbound `def*Vector`, after dispatch the
registry holds exactly one property of that name under the correct
kind-map of the named device, fully overwriting any previous definition;
the name, label, group, state, permission and rule attributes and all
declared values (whitespace-trimmed) are preserved, and a non-empty
message attribute becomes the sole entry of the fresh message log — except
that the `timeout` attribute is never copied (the stored timeout is 0)
and `defBLOBVector` additionally drops the `perm` attribute (stored
permission is empty); other kind-maps and the rest of the registry are
untouched. -/
theorem defVector_upserts_property (now : Time) (c : INDIClient) :
    (∀ item : defTextVector,
      ∃ dev' p',
        (INDIClient.defTextVector now c item).findDevice item.Device = some dev' ∧
        alFind item.Name dev'.TextProperties = some p' ∧
        alCount item.Name dev'.TextProperties = 1 ∧
        p'.Name = item.Name ∧ p'.Label = item.Label ∧ p'.Group = item.Group ∧
        p'.State = item.State ∧ p'.Permissions = item.Perm ∧
        p'.Timeout = 0 ∧ p'.LastUpdated = now ∧
        p'.Messages = (if item.Message.length > 0 then
            [{ Message := item.Message, Timestamp := now }] else []) ∧
        ((item.Texts.map defText.Name).Nodup →
          ∀ val ∈ item.Texts,
            alFind val.Name p'.Values =
              some { Label := val.Label, Name := val.Name, Value := trimSpace val.Value }) ∧
        (∀ n, n ∉ item.Texts.map defText.Name → alFind n p'.Values = none) ∧
        (∀ dev, c.findDevice item.Device = some dev →
          dev'.Name = dev.Name ∧ dev'.Messages = dev.Messages ∧
          dev'.SwitchProperties = dev.SwitchProperties ∧
          dev'.NumberProperties = dev.NumberProperties ∧
          dev'.LightProperties = dev.LightProperties ∧
          dev'.BlobProperties = dev.BlobProperties)) ∧
    (∀ item : defSwitchVector,
      ∃ dev' p',
        (INDIClient.defSwitchVector now c item).findDevice item.Device = some dev' ∧
        alFind item.Name dev'.SwitchProperties = some p' ∧
        alCount item.Name dev'.SwitchProperties = 1 ∧
        p'.Name = item.Name ∧ p'.Label = item.Label ∧ p'.Group = item.Group ∧
        p'.State = item.State ∧ p'.Permissions = item.Perm ∧ p'.Rule = item.Rule ∧
        p'.Timeout = 0 ∧ p'.LastUpdated = now ∧
        p'.Messages = (if item.Message.length > 0 then
            [{ Message := item.Message, Timestamp := now }] else []) ∧
        ((item.Switches.map defSwitch.Name).Nodup →
          ∀ val ∈ item.Switches,
            alFind val.Name p'.Values =
              some { Label := val.Label, Name := val.Name, Value := trimSpace val.Value }) ∧
        (∀ n, n ∉ item.Switches.map defSwitch.Name → alFind n p'.Values = none) ∧
        (∀ dev, c.findDevice item.Device = some dev →
          dev'.Name = dev.Name ∧ dev'.Messages = dev.Messages ∧
          dev'.TextProperties = dev.TextProperties ∧
          dev'.NumberProperties = dev.NumberProperties ∧
          dev'.LightProperties = dev.LightProperties ∧
          dev'.BlobProperties = dev.BlobProperties)) ∧
    (∀ item : defNumberVector,
      ∃ dev' p',
        (INDIClient.defNumberVector now c item).findDevice item.Device = some dev' ∧
        alFind item.Name dev'.NumberProperties = some p' ∧
        alCount item.Name dev'.NumberProperties = 1 ∧
        p'.Name = item.Name ∧ p'.Label = item.Label ∧ p'.Group = item.Group ∧
        p'.State = item.State ∧ p'.Permissions = item.Perm ∧
        p'.Timeout = 0 ∧ p'.LastUpdated = now ∧
        p'.Messages = (if item.Message.length > 0 then
            [{ Message := item.Message, Timestamp := now }] else []) ∧
        ((item.Numbers.map defNumber.Name).Nodup →
          ∀ val ∈ item.Numbers,
            alFind val.Name p'.Values =
              some { Label := val.Label, Name := val.Name, Value := trimSpace val.Value,
                     Format := val.Format, Min := val.Min, Max := val.Max,
                     Step := val.Step }) ∧
        (∀ n, n ∉ item.Numbers.map defNumber.Name → alFind n p'.Values = none) ∧
        (∀ dev, c.findDevice item.Device = some dev →
          dev'.Name = dev.Name ∧ dev'.Messages = dev.Messages ∧
          dev'.TextProperties = dev.TextProperties ∧
          dev'.SwitchProperties = dev.SwitchProperties ∧
          dev'.LightProperties = dev.LightProperties ∧
          dev'.BlobProperties = dev.BlobProperties)) ∧
    (∀ item : defLightVector,
      ∃ dev' p',
        (INDIClient.defLightVector now c item).findDevice item.Device = some dev' ∧
        alFind item.Name dev'.LightProperties = some p' ∧
        alCount item.Name dev'.LightProperties = 1 ∧
        p'.Name = item.Name ∧ p'.Label = item.Label ∧ p'.Group = item.Group ∧
        p'.State = item.State ∧ p'.LastUpdated = now ∧
        p'.Messages = (if item.Message.length > 0 then
            [{ Message := item.Message, Timestamp := now }] else []) ∧
        ((item.Lights.map defLight.Name).Nodup →
          ∀ val ∈ item.Lights,
            alFind val.Name p'.Values =
              some { Label := val.Label, Name := val.Name, Value := trimSpace val.Value }) ∧
        (∀ n, n ∉ item.Lights.map defLight.Name → alFind n p'.Values = none) ∧
        (∀ dev, c.findDevice item.Device = some dev →
          dev'.Name = dev.Name ∧ dev'.Messages = dev.Messages ∧
          dev'.TextProperties = dev.TextProperties ∧
          dev'.SwitchProperties = dev.SwitchProperties ∧
          dev'.NumberProperties = dev.NumberProperties ∧
          dev'.BlobProperties = dev.BlobProperties)) ∧
    (∀ item : defBlobVector,
      ∃ dev' p',
        (INDIClient.defBlobVector now c item).findDevice item.Device = some dev' ∧
        alFind item.Name dev'.BlobProperties = some p' ∧
        alCount item.Name dev'.BlobProperties = 1 ∧
        p'.Name = item.Name ∧ p'.Label = item.Label ∧ p'.Group = item.Group ∧
        p'.State = item.State ∧ p'.Permissions = "" ∧
        p'.Timeout = 0 ∧ p'.LastUpdated = now ∧
        p'.Messages = (if item.Message.length > 0 then
            [{ Message := item.Message, Timestamp := now }] else []) ∧
        ((item.Blobs.map defBlob.Name).Nodup →
          ∀ val ∈ item.Blobs,
            alFind val.Name p'.Values =
              some { Label := val.Label, Name := val.Name, Value := "", Size := 0 }) ∧
        (∀ n, n ∉ item.Blobs.map defBlob.Name → alFind n p'.Values = none) ∧
        (∀ dev, c.findDevice item.Device = some dev →
          dev'.Name = dev.Name ∧ dev'.Messages = dev.Messages ∧
          dev'.TextProperties = dev.TextProperties ∧
          dev'.SwitchProperties = dev.SwitchProperties ∧
          dev'.NumberProperties = dev.NumberProperties ∧
          dev'.LightProperties = dev.LightProperties)) := by
  refine ⟨?_, ?_, ?_, ?_, ?_⟩
  · intro item
    exact ⟨_, _, alFind_alInsert_self _ _ _, alFind_alInsert_self _ _ _,
      alCount_alInsert_self _ _ _, rfl, rfl, rfl, rfl, rfl, rfl, rfl, rfl,
      fun hnd val hval => defValues_find_mem defText.Name _ item.Texts val hnd hval,
      fun n hn => defValues_find_not_mem defText.Name _ item.Texts hn,
      fun dev hdev => by simp [INDIClient.findOrCreateDevice, hdev]⟩
  · intro item
    exact ⟨_, _, alFind_alInsert_self _ _ _, alFind_alInsert_self _ _ _,
      alCount_alInsert_self _ _ _, rfl, rfl, rfl, rfl, rfl, rfl, rfl, rfl, rfl,
      fun hnd val hval => defValues_find_mem defSwitch.Name _ item.Switches val hnd hval,
      fun n hn => defValues_find_not_mem defSwitch.Name _ item.Switches hn,
      fun dev hdev => by simp [INDIClient.findOrCreateDevice, hdev]⟩
  · intro item
    exact ⟨_, _, alFind_alInsert_self _ _ _, alFind_alInsert_self _ _ _,
      alCount_alInsert_self _ _ _, rfl, rfl, rfl, rfl, rfl, rfl, rfl, rfl,
      fun hnd val hval => defValues_find_mem defNumber.Name _ item.Numbers val hnd hval,
      fun n hn => defValues_find_not_mem defNumber.Name _ item.Numbers hn,
      fun dev hdev => by simp [INDIClient.findOrCreateDevice, hdev]⟩
  · intro item
    exact ⟨_, _, alFind_alInsert_self _ _ _, alFind_alInsert_self _ _ _,
      alCount_alInsert_self _ _ _, rfl, rfl, rfl, rfl, rfl, rfl,
      fun hnd val hval => defValues_find_mem defLight.Name _ item.Lights val hnd hval,
      fun n hn => defValues_find_not_mem defLight.Name _ item.Lights hn,
      fun dev hdev => by simp [INDIClient.findOrCreateDevice, hdev]⟩
  · intro item
    exact ⟨_, _, alFind_alInsert_self _ _ _, alFind_alInsert_self _ _ _,
      alCount_alInsert_self _ _ _, rfl, rfl, rfl, rfl, rfl, rfl, rfl, rfl,
      fun hnd val hval => defValues_find_mem defBlob.Name _ item.Blobs val hnd hval,
      fun n hn => defValues_find_not_mem defBlob.Name _ item.Blobs hn,
      fun dev hdev => by simp [INDIClient.findOrCreateDevice, hdev]⟩

/-- Claim C3 witness: dispatching `itemT5` on an empty registry registers
the `Camera` device with exactly one `Binning` switch property. -/
theorem defVector_upserts_property_witness :
    ((INDIClient.defSwitchVector 0 cEmpty itemT5).findDevice itemT5.Device).isSome = true := by
  obtain ⟨dev', p', h1, -⟩ := (defVector_upserts_property 0 cEmpty).2.1 itemT5
  rw [h1]
  rfl

/-! ## Claim C2: set*Vector update discipline -/

/-- Claim C2: for every inbound `set*Vector` (Text/Number/Switch/Light/
BLOB): if the device or the property is missing from the registry, the
element is dropped and the registry is unchanged; otherwise the property's
state, timeout (lights carry none) and lastUpdated are updated, each inner
value whose name is already defined has its value replaced
(whitespace-trimmed; BLOB payload handling is claim C1), inner values with
unknown names are dropped silently and never auto-created, and a non-empty
message attribute is appended to the property's message list. -/
theorem setVector_updates_known_values_only (now : Time)
    (parse : String → Option Time) (c : INDIClient) :
    (∀ item : setSwitchVector,
      (c.findDevice item.Device = none → INDIClient.setSwitchVector now parse c item = c) ∧
      (∀ dev, c.findDevice item.Device = some dev →
        alFind item.Name dev.SwitchProperties = none →
        INDIClient.setSwitchVector now parse c item = c) ∧
      (∀ dev p, c.findDevice item.Device = some dev →
        alFind item.Name dev.SwitchProperties = some p →
        ∃ dev' p',
          (INDIClient.setSwitchVector now parse c item).findDevice item.Device = some dev' ∧
          alFind item.Name dev'.SwitchProperties = some p' ∧
          p'.State = item.State ∧ p'.Timeout = item.Timeout ∧
          p'.LastUpdated = resolveTime now parse item.Timestamp ∧
          ((item.Switches.map oneSwitch.Name).Nodup →
            ∀ val ∈ item.Switches, ∀ v, alFind val.Name p.Values = some v →
              alFind val.Name p'.Values = some { v with Value := trimSpace val.Value }) ∧
          (∀ n, alFind n p.Values = none → alFind n p'.Values = none) ∧
          (∀ n, (∀ val ∈ item.Switches, val.Name ≠ n) →
            alFind n p'.Values = alFind n p.Values) ∧
          p'.Messages = (if item.Message.length > 0 then
              p.Messages ++ [{ Message := item.Message, Timestamp := now }]
            else p.Messages))) ∧
    (∀ item : setTextVector,
      (c.findDevice item.Device = none → INDIClient.setTextVector now parse c item = c) ∧
      (∀ dev, c.findDevice item.Device = some dev →
        alFind item.Name dev.TextProperties = none →
        INDIClient.setTextVector now parse c item = c) ∧
      (∀ dev p, c.findDevice item.Device = some dev →
        alFind item.Name dev.TextProperties = some p →
        ∃ dev' p',
          (INDIClient.setTextVector now parse c item).findDevice item.Device = some dev' ∧
          alFind item.Name dev'.TextProperties = some p' ∧
          p'.State = item.State ∧ p'.Timeout = item.Timeout ∧
          p'.LastUpdated = resolveTime now parse item.Timestamp ∧
          ((item.Texts.map oneText.Name).Nodup →
            ∀ val ∈ item.Texts, ∀ v, alFind val.Name p.Values = some v →
              alFind val.Name p'.Values = some { v with Value := trimSpace val.Value }) ∧
          (∀ n, alFind n p.Values = none → alFind n p'.Values = none) ∧
          (∀ n, (∀ val ∈ item.Texts, val.Name ≠ n) →
            alFind n p'.Values = alFind n p.Values) ∧
          p'.Messages = (if item.Message.length > 0 then
              p.Messages ++ [{ Message := item.Message, Timestamp := now }]
            else p.Messages))) ∧
    (∀ item : setNumberVector,
      (c.findDevice item.Device = none → INDIClient.setNumberVector now parse c item = c) ∧
      (∀ dev, c.findDevice item.Device = some dev →
        alFind item.Name dev.NumberProperties = none →
        INDIClient.setNumberVector now parse c item = c) ∧
      (∀ dev p, c.findDevice item.Device = some dev →
        alFind item.Name dev.NumberProperties = some p →
        ∃ dev' p',
          (INDIClient.setNumberVector now parse c item).findDevice item.Device = some dev' ∧
          alFind item.Name dev'.NumberProperties = some p' ∧
          p'.State = item.State ∧ p'.Timeout = item.Timeout ∧
          p'.LastUpdated = resolveTime now parse item.Timestamp ∧
          ((item.Numbers.map oneNumber.Name).Nodup →
            ∀ val ∈ item.Numbers, ∀ v, alFind val.Name p.Values = some v →
              alFind val.Name p'.Values = some { v with Value := trimSpace val.Value }) ∧
          (∀ n, alFind n p.Values = none → alFind n p'.Values = none) ∧
          (∀ n, (∀ val ∈ item.Numbers, val.Name ≠ n) →
            alFind n p'.Values = alFind n p.Values) ∧
          p'.Messages = (if item.Message.length > 0 then
              p.Messages ++ [{ Message := item.Message, Timestamp := now }]
            else p.Messages))) ∧
    (∀ item : setLightVector,
      (c.findDevice item.Device = none → INDIClient.setLightVector now parse c item = c) ∧
      (∀ dev, c.findDevice item.Device = some dev →
        alFind item.Name dev.LightProperties = none →
        INDIClient.setLightVector now parse c item = c) ∧
      (∀ dev p, c.findDevice item.Device = some dev →
        alFind item.Name dev.LightProperties = some p →
        ∃ dev' p',
          (INDIClient.setLightVector now parse c item).findDevice item.Device = some dev' ∧
          alFind item.Name dev'.LightProperties = some p' ∧
          p'.State = item.State ∧
          p'.LastUpdated = resolveTime now parse item.Timestamp ∧
          ((item.Lights.map oneLight.Name).Nodup →
            ∀ val ∈ item.Lights, ∀ v, alFind val.Name p.Values = some v →
              alFind val.Name p'.Values = some { v with Value := trimSpace val.Value }) ∧
          (∀ n, alFind n p.Values = none → alFind n p'.Values = none) ∧
          (∀ n, (∀ val ∈ item.Lights, val.Name ≠ n) →
            alFind n p'.Values = alFind n p.Values) ∧
          p'.Messages = (if item.Message.length > 0 then
              p.Messages ++ [{ Message := item.Message, Timestamp := now }]
            else p.Messages))) ∧
    (∀ item : setBlobVector,
      (c.findDevice item.Device = none → INDIClient.setBlobVector now parse c item = c) ∧
      (∀ dev, c.findDevice item.Device = some dev →
        alFind item.Name dev.BlobProperties = none →
        INDIClient.setBlobVector now parse c item = c) ∧
      (∀ dev p, c.findDevice item.Device = some dev →
        alFind item.Name dev.BlobProperties = some p →
        ∃ dev' p',
          (INDIClient.setBlobVector now parse c item).findDevice item.Device = some dev' ∧
          alFind item.Name dev'.BlobProperties = some p' ∧
          p'.State = item.State ∧ p'.Timeout = item.Timeout ∧
          p'.LastUpdated = resolveTime now parse item.Timestamp ∧
          (∀ n, alFind n p.Values = none → alFind n p'.Values = none) ∧
          (∀ n, (∀ val ∈ item.Blobs, val.Name ≠ n) →
            alFind n p'.Values = alFind n p.Values) ∧
          p'.Messages = (if item.Message.length > 0 then
              p.Messages ++ [{ Message := item.Message, Timestamp := now }]
            else p.Messages))) := by
  refine ⟨?_, ?_, ?_, ?_, ?_⟩
  · intro item
    refine ⟨?_, ?_, ?_⟩
    · intro h
      simp only [INDIClient.setSwitchVector, h]
    · intro dev hdev hprop
      simp only [INDIClient.setSwitchVector, hdev, hprop]
    · intro dev p hdev hprop
      by_cases hm : item.Message.length > 0 <;>
        simp only [INDIClient.setSwitchVector, hdev, hprop, hm, if_true, if_false,
          ite_true, ite_false] <;>
        exact ⟨_, _, alFind_alInsert_self _ _ _, alFind_alInsert_self _ _ _, rfl, rfl, rfl,
          fun hnd val hmem v hv =>
            applySets_find_mem oneSwitch.Name _ _ item.Switches val v hnd hmem hv,
          fun n hn => applySets_find_absent oneSwitch.Name _ _ item.Switches hn,
          fun n hns => applySets_find_not_mem oneSwitch.Name _ _ item.Switches hns,
          rfl⟩
  · intro item
    refine ⟨?_, ?_, ?_⟩
    · intro h
      simp only [INDIClient.setTextVector, h]
    · intro dev hdev hprop
      simp only [INDIClient.setTextVector, hdev, hprop]
    · intro dev p hdev hprop
      by_cases hm : item.Message.length > 0 <;>
        simp only [INDIClient.setTextVector, hdev, hprop, hm, if_true, if_false,
          ite_true, ite_false] <;>
        exact ⟨_, _, alFind_alInsert_self _ _ _, alFind_alInsert_self _ _ _, rfl, rfl, rfl,
          fun hnd val hmem v hv =>
            applySets_find_mem oneText.Name _ _ item.Texts val v hnd hmem hv,
          fun n hn => applySets_find_absent oneText.Name _ _ item.Texts hn,
          fun n hns => applySets_find_not_mem oneText.Name _ _ item.Texts hns,
          rfl⟩
  · intro item
    refine ⟨?_, ?_, ?_⟩
    · intro h
      simp only [INDIClient.setNumberVector, h]
    · intro dev hdev hprop
      simp only [INDIClient.setNumberVector, hdev, hprop]
    · intro dev p hdev hprop
      by_cases hm : item.Message.length > 0 <;>
        simp only [INDIClient.setNumberVector, hdev, hprop, hm, if_true, if_false,
          ite_true, ite_false] <;>
        exact ⟨_, _, alFind_alInsert_self _ _ _, alFind_alInsert_self _ _ _, rfl, rfl, rfl,
          fun hnd val hmem v hv =>
            applySets_find_mem oneNumber.Name _ _ item.Numbers val v hnd hmem hv,
          fun n hn => applySets_find_absent oneNumber.Name _ _ item.Numbers hn,
          fun n hns => applySets_find_not_mem oneNumber.Name _ _ item.Numbers hns,
          rfl⟩
  · intro item
    refine ⟨?_, ?_, ?_⟩
    · intro h
      simp only [INDIClient.setLightVector, h]
    · intro dev hdev hprop
      simp only [INDIClient.setLightVector, hdev, hprop]
    · intro dev p hdev hprop
      by_cases hm : item.Message.length > 0 <;>
        simp only [INDIClient.setLightVector, hdev, hprop, hm, if_true, if_false,
          ite_true, ite_false] <;>
        exact ⟨_, _, alFind_alInsert_self _ _ _, alFind_alInsert_self _ _ _, rfl, rfl,
          fun hnd val hmem v hv =>
            applySets_find_mem oneLight.Name _ _ item.Lights val v hnd hmem hv,
          fun n hn => applySets_find_absent oneLight.Name _ _ item.Lights hn,
          fun n hns => applySets_find_not_mem oneLight.Name _ _ item.Lights hns,
          rfl⟩
  · intro item
    refine ⟨?_, ?_, ?_⟩
    · intro h
      simp only [INDIClient.setBlobVector, h]
    · intro dev hdev hprop
      simp only [INDIClient.setBlobVector, hdev, hprop]
    · intro dev p hdev hprop
      by_cases hm : item.Message.length > 0 <;>
        simp only [INDIClient.setBlobVector, hdev, hprop, hm, if_true, if_false,
          ite_true, ite_false] <;>
        exact ⟨_, _, alFind_alInsert_self _ _ _, alFind_alInsert_self _ _ _, rfl, rfl, rfl,
          fun n hn => blobFold_vals_absent item item.Blobs _ hn,
          fun n hns => blobFold_vals_not_mem item item.Blobs _ hns,
          rfl⟩

/-- Claim C2 witness: dispatching `itemSw` on `cSw` updates state, timeout,
trimmed value and appends the message. -/
theorem setVector_updates_known_values_only_witness :
    cSw.findDevice itemSw.Device = some devSw ∧
    alFind itemSw.Name devSw.SwitchProperties = some propSw ∧
    ((INDIClient.setSwitchVector 0 parse0 cSw itemSw).findDevice itemSw.Device).isSome
      = true := by
  refine ⟨by decide, by decide, ?_⟩
  obtain ⟨dev', p', h1, -⟩ :=
    ((setVector_updates_known_values_only 0 parse0 cSw).1 itemSw).2.2 devSw propSw
      (by decide) (by decide)
  rw [h1]
  rfl

/-! ## Claim C1: the BLOB sink -/

/-- Claim C1: for every inbound `setBLOBVector` whose device and BLOB
property exist in the registry, and for each contained `oneBLOB` entry
whose value name was introduced by a prior `defBLOBVector`: the client
writes the base64-decoded payload (surrounding whitespace trimmed) to the
file `<device>_<property>_<valueName><format>` (created/truncated), then
sets that BlobValue's `value` to the sink path and its `size` to the
number of bytes actually written; entries whose value name was not defined
are skipped. -/
theorem setBlobVector_writes_decoded_payload (now : Time)
    (parse : String → Option Time) (c : INDIClient) (item : setBlobVector)
    (dev : Device) (p : BlobProperty)
    (hdev : c.findDevice item.Device = some dev)
    (hprop : alFind item.Name dev.BlobProperties = some p)
    (hnames : (item.Blobs.map oneBlob.Name).Nodup)
    (hfiles : (item.Blobs.map (blobFileName item)).Nodup) :
    ∃ dev' p',
      (INDIClient.setBlobVector now parse c item).findDevice item.Device = some dev' ∧
      alFind item.Name dev'.BlobProperties = some p' ∧
      (∀ val ∈ item.Blobs, ∀ v, alFind val.Name p.Values = some v →
        (b64Decode (trimSpace val.Value)).2 = true →
        alFind (blobFileName item val) (INDIClient.setBlobVector now parse c item).fs
            = some (b64Decode (trimSpace val.Value)).1 ∧
        alFind val.Name p'.Values
            = some { v with Value := blobFileName item val,
                            Size := ((b64Decode (trimSpace val.Value)).1.length : Int) }) ∧
      (∀ val ∈ item.Blobs, alFind val.Name p.Values = none →
        alFind val.Name p'.Values = none) := by
  by_cases hm : item.Message.length > 0 <;>
    simp only [INDIClient.setBlobVector, hdev, hprop, hm, if_true, if_false,
      ite_true, ite_false] <;>
    exact ⟨_, _, alFind_alInsert_self _ _ _, alFind_alInsert_self _ _ _,
      fun val hmem v hv hdec =>
        ⟨(blobFold_mem item item.Blobs _ val v hnames hfiles hmem hv hdec).2,
         (blobFold_mem item item.Blobs _ val v hnames hfiles hmem hv hdec).1⟩,
      fun val hmem hv => blobFold_vals_absent item item.Blobs _ hv⟩

/-- Claim C1 witness: the base64 payload `MTIzNDU2Nzg5MA==` decodes to the
bytes of `1234567890`, which land in the file `dev1_prop1_blob1.fit`. -/
theorem setBlobVector_writes_decoded_payload_witness :
    cBlob.findDevice itemBlob.Device = some devBlob ∧
    alFind itemBlob.Name devBlob.BlobProperties = some propBlob ∧
    (b64Decode (trimSpace blobOne.Value)).2 = true ∧
    (b64Decode (trimSpace blobOne.Value)).1 = [49, 50, 51, 52, 53, 54, 55, 56, 57, 48] ∧
    blobFileName itemBlob blobOne = "dev1_prop1_blob1.fit" ∧
    alFind (blobFileName itemBlob blobOne)
        (INDIClient.setBlobVector 0 parse0 cBlob itemBlob).fs
      = some (b64Decode (trimSpace blobOne.Value)).1 := by
  refine ⟨by decide, by decide, by decide, by decide, by decide, ?_⟩
  obtain ⟨dev', p', h1, h2, h3, h4⟩ :=
    setBlobVector_writes_decoded_payload 0 parse0 cBlob itemBlob devBlob propBlob
      (by decide) (by decide) (by decide) (by decide)
  exact (h3 blobOne (by decide) { Name := "blob1", Label := "label1", Value := "", Size := 0 }
    (by decide) (by decide)).1

end IndiClient
